import Mathlib

/-!
Shallow embedding of the swarfarm data-log report generation engine
(`src/data_log/reports/generate.py`) and verification of the frozen claims
about it.  Django querysets over log records and drop records are modelled
as Lean lists carrying the joined row attributes; SQL aggregation (COUNT,
MIN, MAX, AVG, SUM) is modelled by the corresponding list operations;
floating point rates are modelled exactly over the rational numbers.
-/

namespace Swarfarm

/-! ## Generic list helpers (insertion sort and grouping, used to model
ORDER BY and GROUP BY) -/

/-- Insertion step for `sortLe`: places `x` before the first element `y`
with `le x y`. -/
def insertLe (le : α → α → Bool) (x : α) : List α → List α
  | [] => [x]
  | y :: ys => if le x y then x :: y :: ys else y :: insertLe le x ys

/-- Insertion sort by a boolean comparison, modelling a SQL ORDER BY. -/
def sortLe (le : α → α → Bool) : List α → List α
  | [] => []
  | x :: xs => insertLe le x (sortLe le xs)

def groupBy [DecidableEq κ] (key : α → κ) (l : List α) : List (κ × List α) :=
  (l.map key).dedup.map (fun k => (k, l.filter (fun x => decide (key x = k))))

end Swarfarm

namespace Swarfarm

/-! ## Data model

One structure per database row kind, carrying the attributes the reporting
engine reads (including the attributes reached through foreign-key joins,
denormalised onto the row). -/

/-- A data-log record: one row per completed attempt at a level.
Timestamps are integer seconds. -/
structure LogRecord where
  pk : Nat
  timestamp : Int
  wizard_id : Nat
  success : Bool
  grade : Nat
deriving DecidableEq, Inhabited, Repr

/-- An item drop row, with the joined `item__*` attributes. -/
structure ItemDrop where
  log : LogRecord
  item : Nat
  itemName : String
  itemIcon : String
  itemCategory : Nat
  quantity : Nat
deriving DecidableEq, Inhabited, Repr

/-- A monster drop row, with the joined `monster__*` attributes.  `grade` is
the star grade the monster dropped at. -/
structure MonsterDrop where
  log : LogRecord
  monster : Nat
  monsterName : String
  monsterSlug : String
  monsterIcon : String
  monsterElement : String
  monsterCanAwaken : Bool
  monsterIsAwakened : Bool
  monsterBaseStars : Nat
  monsterFamilyId : Nat
  monsterCom2usId : Nat
  grade : Nat
deriving DecidableEq, Inhabited, Repr

/-- A monster piece drop row. -/
structure MonsterPieceDrop where
  log : LogRecord
  monster : Nat
  monsterName : String
  monsterIcon : String
  monsterElement : String
  quantity : Nat
deriving DecidableEq, Inhabited, Repr

/-- A rune drop row.  `innate_stat` value 0 encodes the SQL NULL of a rune
without an innate stat; `substats` is the array-valued column. -/
structure RuneDrop where
  log : LogRecord
  stars : Nat
  rtype : Nat
  quality : Nat
  slot : Nat
  main_stat : Nat
  innate_stat : Nat
  substats : List Nat
  max_efficiency : ℚ
  value : Int
deriving DecidableEq, Inhabited, Repr

/-- A rune craft material drop row: craft type, rune set type, quality. -/
structure RuneCraftDrop where
  log : LogRecord
  ctype : Nat
  rune : Nat
  quality : Nat
deriving DecidableEq, Inhabited, Repr

/-- A secret dungeon unlock drop row, with the joined
`level__dungeon__secretdungeon__monster__*` attributes. -/
structure SecretDungeonDrop where
  log : LogRecord
  monsterName : String
  monsterElement : String
  monsterIcon : String
deriving DecidableEq, Inhabited, Repr

/-- A row of the game item catalog (`bestiary.models.GameItem`). -/
structure GameItem where
  pk : Nat
  name : String
  icon : String
  category : Nat
deriving DecidableEq, Inhabited, Repr

/-- A row of the monster catalog (`bestiary.models.Monster`). -/
structure MonsterCatalogRow where
  pk : Nat
  name : String
  image_filename : String
  base_stars : Nat
deriving DecidableEq, Inhabited, Repr

/-! ## Modelled collaborators

The functions below live outside `src/` (in `data_log/util.py`, in the
`django_pivot` library, or in the model/catalog modules); they are modelled
from the spec. -/

/-- Modelled from the spec: `data_log.util.floor_to_nearest` (module not in
src) rounds down to the nearest multiple of `m` (`m` positive; `/` is floor
division, as in Python). -/
def floor_to_nearest (x m : Int) : Int :=
  m * (x / m)

/-- Modelled from the spec: `data_log.util.ceil_to_nearest` (module not in
src) rounds up to the nearest multiple of `m` (`m` positive). -/
def ceil_to_nearest (x m : Int) : Int :=
  m * (-((-x) / m))

/-- Modelled from the spec: choice-code-to-label translation
(`data_log.util.replace_value_with_choice`, module not in src) replaces a
coded value by its catalog display label when the code is present in the
choice table, and leaves the code (rendered as a string) otherwise. -/
def choiceLabel [BEq κ] [ToString κ] (choices : List (κ × String)) (code : κ) :
    String :=
  match choices.lookup code with
  | some s => s
  | none => toString code

/-- Modelled from the spec: `data_log.util.transform_to_dict` (module not in
src) reshapes a list of key/count rows into a mapping; the rows here are
already key/count pairs, so the mapping is the association list itself. -/
def transform_to_dict (rows : List (κ × Nat)) : List (κ × Nat) :=
  rows

/-- Python `range(lo, hi, 500)` over integers: the bin lower bounds used for
the rune sell value histogram. -/
def pyRange500 (lo hi : Int) : List Int :=
  (List.range (((hi - lo).toNat + 499) / 500)).map
    (fun i : Nat => lo + 500 * (i : Int))

/-- The bin a value falls into: the largest bin lower bound that is ≤ the
value, if any. -/
def binFor [LinearOrder α] (bins : List α) (v : α) : Option α :=
  (bins.filter (fun b => decide (b ≤ v))).max?

/-- Modelled from the spec: `django_pivot.histogram` (library code, not in
src).  Given value/slice pairs and a list of bin lower bounds, produces one
output row per bin; each row lists, for every distinct observed slice value,
the number of input rows whose value falls in that bin (the final bin is
open-ended above, rows below the first bin are not counted, and bins with no
members still appear with zero counts). -/
def histogram [LinearOrder α] [DecidableEq α] (rows : List (α × Nat))
    (bins : List α) : List (α × List (Nat × Nat)) :=
  let slices := (rows.map (fun r => r.2)).dedup
  bins.map (fun b =>
    (b, slices.map (fun q =>
      (q, rows.countP (fun r => decide (binFor bins r.1 = some b ∧ r.2 = q))))))

/-! ## Sampling Window Selector -/

/-- `_records_to_report` from `generate.py`: the sampling window selector.
`qs` is the record stream (most recent first), `now` the current time,
`report_timespan` the target time span in seconds and `minimum_count` the
minimum record count.  The two `timezone.now()` calls of the source are
modelled by the single instant `now`. -/
def recordsToReport (qs : List LogRecord) (now : Int)
    (report_timespan : Int) (minimum_count : Nat) : List LogRecord :=
  if (qs.filter (fun r => decide (now - report_timespan ≤ r.timestamp))).length
      < minimum_count then
    let results := qs.take minimum_count
    if results.length > 0 then
      match results.getLast? with
      | some earliest =>
          qs.filter (fun r => decide (earliest.timestamp ≤ r.timestamp))
      | none => qs
    else
      qs
  else
    qs.filter (fun r => decide (now - report_timespan ≤ r.timestamp))

/-- The stream order assumed by the engine: most recent record first. -/
def sortedDesc (l : List LogRecord) : Prop :=
  l.Pairwise (fun a b => b.timestamp ≤ a.timestamp)

instance (l : List LogRecord) : Decidable (sortedDesc l) :=
  List.instDecidablePairwise l

def c1ExDistinct : List LogRecord :=
  [⟨1, 10, 1, true, 0⟩, ⟨2, 5, 1, true, 0⟩, ⟨3, 3, 2, true, 0⟩]

/-- Concrete records with a timestamp tie at the count-window boundary. -/
def c1ExTied : List LogRecord :=
  [⟨1, 10, 1, true, 0⟩, ⟨2, 5, 1, true, 0⟩, ⟨3, 5, 2, true, 0⟩]

/-! ## Drop category names and choice tables

The `RELATED_NAME` constants and choice tables live in `data_log/models.py`
and `bestiary/models.py`, which are not in src; they are modelled from the
spec (the `items` and `monsters` names are corroborated by their literal use
in `grade_summary_report` in src). -/

/-- Modelled from the spec: `models.ItemDrop.RELATED_NAME` (models module not
in src). -/
def itemsRelatedName : String := "items"

/-- Modelled from the spec: `models.MonsterDrop.RELATED_NAME` (models module
not in src). -/
def monstersRelatedName : String := "monsters"

/-- Modelled from the spec: `models.MonsterPieceDrop.RELATED_NAME` (models
module not in src). -/
def monsterPiecesRelatedName : String := "monster_pieces"

/-- Modelled from the spec: `models.RuneDrop.RELATED_NAME` (models module not
in src). -/
def runesRelatedName : String := "runes"

/-- Modelled from the spec: `models.RuneCraftDrop.RELATED_NAME` (models
module not in src). -/
def runeCraftsRelatedName : String := "rune_crafts"

/-- Modelled from the spec: `models.DungeonSecretDungeonDrop.RELATED_NAME`
(models module not in src). -/
def secretDungeonsRelatedName : String := "secret_dungeons"

/-- Modelled from the spec: `GameItem.CATEGORY_CURRENCY` (bestiary models
module not in src); the item category code excluded from chart data. -/
def CATEGORY_CURRENCY : Nat := 1

/-- Modelled from the spec: `Monster.ELEMENT_CHOICES` — catalog labels for
element codes (vocabulary corroborated by the migration file in src). -/
def monsterElementChoices : List (String × String) :=
  [("fire", "Fire"), ("water", "Water"), ("wind", "Wind"),
   ("light", "Light"), ("dark", "Dark")]

/-- Modelled from the spec: `Rune.TYPE_CHOICES` — catalog labels for rune set
type codes (table lives outside src; entries illustrative). -/
def runeTypeChoices : List (Nat × String) :=
  [(1, "Energy"), (2, "Fatal"), (3, "Blade"), (4, "Rage"), (5, "Swift")]

/-- Modelled from the spec: `Rune.QUALITY_CHOICES` — catalog labels for
quality codes (table lives outside src; entries illustrative). -/
def runeQualityChoices : List (Nat × String) :=
  [(0, "Normal"), (1, "Magic"), (2, "Rare"), (3, "Hero"), (4, "Legend")]

/-- Modelled from the spec: `Rune.STAT_CHOICES` — catalog labels for stat
codes (table lives outside src; entries illustrative). -/
def runeStatChoices : List (Nat × String) :=
  [(1, "HP"), (2, "HP %"), (3, "ATK"), (4, "ATK %"), (5, "DEF"),
   (6, "DEF %"), (7, "SPD"), (8, "CRI Rate %"), (9, "CRI Dmg %"),
   (10, "Resistance %"), (11, "Accuracy %")]


/-! ## Category Aggregators -/

/-- SQL AVG over a quantity column: NULL on an empty group. -/
def avgQ (quantities : List Nat) : Option ℚ :=
  if quantities.length = 0 then none
  else some ((quantities.sum : ℚ) / (quantities.length : ℚ))

/-- A row of the `get_item_report` output: the annotated values of one item
group.  `drop_chance` and `avg_per_run` divide by the `total_log_count`
argument (exactly, over ℚ); SQL NULL aggregates over empty groups are
`none`. -/
structure ItemReportRow where
  item : Nat
  name : String
  icon : String
  count : Nat
  min : Option Nat
  max : Option Nat
  avg : Option ℚ
  drop_chance : ℚ
  avg_per_run : Option ℚ
deriving DecidableEq, Inhabited, Repr

/-- The annotated row for one `(item, name, icon)` group of item drops. -/
def itemReportRow (total_log_count : Nat) (key : Nat × String × String)
    (grp : List ItemDrop) : ItemReportRow :=
  ⟨key.1, key.2.1, key.2.2, grp.length,
   (grp.map (fun d => d.quantity)).min?,
   (grp.map (fun d => d.quantity)).max?,
   avgQ (grp.map (fun d => d.quantity)),
   (grp.length : ℚ) / (total_log_count : ℚ) * 100,
   if grp.length = 0 then none
   else some (((grp.map (fun d => d.quantity)).sum : ℚ) / (total_log_count : ℚ))⟩

/-- `get_item_report` from `generate.py`: None on an empty handle, else one
row per item with count, quantity min/max/avg, drop chance and average per
run, ordered by descending count. -/
def get_item_report (qs : List ItemDrop) (total_log_count : Nat) :
    Option (List ItemReportRow) :=
  if qs.length = 0 then none
  else some (sortLe (fun a b => decide (b.count ≤ a.count))
    ((groupBy (fun d => (d.item, d.itemName, d.itemIcon)) qs).map
      (fun g => itemReportRow total_log_count g.1 g.2)))

/-- A `type: occurrences` section of a report: the window total plus the
grouped data rows. -/
structure OccSection (α : Type) where
  total : Nat
  data : List α
deriving DecidableEq, Inhabited, Repr

/-- A data row of the by-unique-monster breakdown. -/
structure MonsterOccRow where
  monster : Nat
  name : String
  element : String
  com2us_id : Nat
  icon : String
  count : Nat
deriving DecidableEq, Inhabited, Repr

/-- A data row of the by-family breakdown. -/
structure FamilyOccRow where
  family_id : Nat
  name : String
  count : Nat
deriving DecidableEq, Inhabited, Repr

/-- A data row of the by-native-star-rating breakdown, with drop chance. -/
structure NatStarsRow where
  nat_stars : Nat
  count : Nat
  drop_chance : ℚ
deriving DecidableEq, Inhabited, Repr

/-- A data row of the by-element breakdown (element already labelled). -/
structure ElementCountRow where
  element : String
  count : Nat
deriving DecidableEq, Inhabited, Repr

/-- A data row of the by-awakened-state breakdown. -/
structure AwakenedRow where
  awakened : Bool
  count : Nat
deriving DecidableEq, Inhabited, Repr

/-- The `get_monster_report` output: five occurrence sections. -/
structure MonsterReport where
  monsters : OccSection MonsterOccRow
  family : OccSection FamilyOccRow
  nat_stars : OccSection NatStarsRow
  element : OccSection ElementCountRow
  awakened : OccSection AwakenedRow
deriving DecidableEq, Inhabited, Repr

/-- `get_monster_report` from `generate.py`: None on an empty handle, else
breakdowns by unique monster, family, native star rating (with drop chance),
element (labelled) and awakened state. -/
def get_monster_report (qs : List MonsterDrop) (total_log_count : Nat) :
    Option MonsterReport :=
  if qs.length = 0 then none
  else some ⟨
    ⟨qs.length,
     (groupBy (fun d => (d.monster, d.monsterName, d.monsterElement,
        d.monsterCom2usId, d.monsterIcon)) qs).map
       (fun g => ⟨g.1.1, g.1.2.1, g.1.2.2.1, g.1.2.2.2.1, g.1.2.2.2.2,
         g.2.length⟩)⟩,
    ⟨qs.length,
     (groupBy (fun d => (d.monsterFamilyId, d.monsterName)) qs).map
       (fun g => ⟨g.1.1, g.1.2, g.2.length⟩)⟩,
    ⟨qs.length,
     (groupBy (fun d => d.monsterBaseStars) qs).map
       (fun g => ⟨g.1, g.2.length,
         (g.2.length : ℚ) / (total_log_count : ℚ) * 100⟩)⟩,
    ⟨qs.length,
     (groupBy (fun d => d.monsterElement) qs).map
       (fun g => ⟨choiceLabel monsterElementChoices g.1, g.2.length⟩)⟩,
    ⟨qs.length,
     (groupBy (fun d => d.monsterIsAwakened) qs).map
       (fun g => ⟨g.1, g.2.length⟩)⟩⟩

/-- The dynamically-typed result of the three placeholder aggregators: the
Python value is either None or a plain string. -/
inductive StubReport where
  | pyNone
  | pyStr (s : String)
deriving DecidableEq, Inhabited, Repr

/-- `get_monster_piece_report` from `generate.py`: returns the fixed string
for every input. -/
def get_monster_piece_report (_qs : List MonsterPieceDrop)
    (_total_log_count : Nat) : StubReport :=
  StubReport.pyStr "monster piece report"

/-- `get_rune_craft_report` from `generate.py`: returns the fixed string for
every input. -/
def get_rune_craft_report (_qs : List RuneCraftDrop)
    (_total_log_count : Nat) : StubReport :=
  StubReport.pyStr "rune craft report"

/-- `get_secret_dungeon_report` from `generate.py`: returns the fixed string
for every input. -/
def get_secret_dungeon_report (_qs : List SecretDungeonDrop)
    (_total_log_count : Nat) : StubReport :=
  StubReport.pyStr "secret dungeon report"

/-- A `type: histogram` section: the bucket width and one row per bucket,
each with per-quality counts. -/
structure HistogramReport (α : Type) where
  width : Nat
  data : List (α × List (Nat × Nat))
deriving DecidableEq, Inhabited, Repr

/-- The `get_rune_report` output: seven occurrence sections plus the two
histograms. -/
structure RuneReport where
  stars : OccSection (String × Nat)
  rtype : OccSection (String × Nat)
  quality : OccSection (String × Nat)
  slot : OccSection (Nat × Nat)
  main_stat : OccSection (String × Nat)
  innate_stat : OccSection (String × Nat)
  substats : OccSection (String × Nat)
  max_efficiency : HistogramReport ℚ
  value : HistogramReport Int
deriving DecidableEq, Inhabited, Repr

/-- `get_rune_report` from `generate.py`: None on an empty handle, else
breakdowns by star grade, set type, quality, slot, main stat, innate stat and
flattened substats, plus the max-efficiency histogram (width 5, bins 0–95)
and the sell value histogram (width 500, bins from the observed minimum
rounded down to the nearest 1000 up to the observed maximum rounded up to the
nearest 1000). -/
def get_rune_report (qs : List RuneDrop) (total_log_count : Nat) :
    Option RuneReport :=
  if qs.length = 0 then none
  else
    let all_substats := qs.flatMap (fun r => r.substats)
    let min_value := ((qs.map (fun r => r.value)).min?).getD 0
    let max_value := ((qs.map (fun r => r.value)).max?).getD 0
    let lo := floor_to_nearest min_value 1000
    let hi := ceil_to_nearest max_value 1000
    some ⟨
      ⟨qs.length, transform_to_dict (sortLe (fun a b => decide (b.2 ≤ a.2))
        ((groupBy (fun r => toString r.stars ++ "⭐") qs).map
          (fun g => (g.1, g.2.length))))⟩,
      ⟨qs.length, transform_to_dict ((sortLe (fun a b => decide (b.2 ≤ a.2))
        ((groupBy (fun r => r.rtype) qs).map (fun g => (g.1, g.2.length)))).map
          (fun p => (choiceLabel runeTypeChoices p.1, p.2)))⟩,
      ⟨qs.length, transform_to_dict ((sortLe (fun a b => decide (b.2 ≤ a.2))
        ((groupBy (fun r => r.quality) qs).map
          (fun g => (g.1, g.2.length)))).map
          (fun p => (choiceLabel runeQualityChoices p.1, p.2)))⟩,
      ⟨qs.length, transform_to_dict (sortLe (fun a b => decide (b.2 ≤ a.2))
        ((groupBy (fun r => r.slot) qs).map (fun g => (g.1, g.2.length))))⟩,
      ⟨qs.length, transform_to_dict ((sortLe (fun a b => decide (a.1 ≤ b.1))
        ((groupBy (fun r => r.main_stat) qs).map
          (fun g => (g.1, g.2.length)))).map
          (fun p => (choiceLabel runeStatChoices p.1, p.2)))⟩,
      ⟨qs.length, transform_to_dict ((sortLe (fun a b => decide (a.1 ≤ b.1))
        ((groupBy (fun r => r.innate_stat) qs).map
          (fun g => (g.1, g.2.length)))).map
          (fun p => (choiceLabel runeStatChoices p.1, p.2)))⟩,
      ⟨all_substats.length, transform_to_dict ((sortLe
        (fun a b => decide (a.1 ≤ b.1))
        (all_substats.dedup.map
          (fun k => (k, all_substats.count k)))).map
          (fun p => (choiceLabel runeStatChoices p.1, p.2)))⟩,
      ⟨5, histogram (qs.map (fun r => (r.max_efficiency, r.quality)))
        ((List.range 20).map (fun i => ((5 * i : Nat) : ℚ)))⟩,
      ⟨500, histogram (qs.map (fun r => (r.value, r.quality)))
        (pyRange500 lo hi)⟩⟩

/-! ## Summary Composer -/

/-- Python `str.capitalize`: first character upper-cased, the rest
lower-cased. -/
def pyCapitalize (s : String) : String :=
  match s.toList with
  | [] => ""
  | c :: rest => String.mk (c.toUpper :: rest.map Char.toLower)

/-- Python `str.rstrip` with a single character: drops every trailing
occurrence of that character. -/
def pyRstrip (s : String) (c : Char) : String :=
  String.mk ((s.toList.reverse.dropWhile (fun x => x == c)).reverse)

/-- The chart label computed for the scalar drop categories: underscores to
spaces, words capitalised, trailing letter s stripped. -/
def chartName (drop_type : String) : String :=
  pyRstrip (String.intercalate " " ((drop_type.splitOn "_").map pyCapitalize)) 's'

/-- A chart entry of the summary: a display name and a count. -/
structure ChartEntry where
  name : String
  count : Nat
deriving DecidableEq, Inhabited, Repr

/-- A summary table row for the items category (grouped by name and icon). -/
structure SummaryItemRow where
  name : String
  icon : String
  count : Nat
  min : Option Nat
  max : Option Nat
  avg : Option ℚ
  drop_chance : ℚ
  avg_per_run : Option ℚ
deriving DecidableEq, Inhabited, Repr

/-- A summary table row for the monsters category. -/
structure SummaryMonsterRow where
  name : String
  slug : String
  icon : String
  element : String
  can_awaken : Bool
  is_awakened : Bool
  stars : Nat
  count : Nat
  drop_chance : ℚ
deriving DecidableEq, Inhabited, Repr

/-- A summary table row for the monster pieces category. -/
structure SummaryPieceRow where
  name : String
  icon : String
  element : String
  count : Nat
  min : Option Nat
  max : Option Nat
  avg : Option ℚ
deriving DecidableEq, Inhabited, Repr

/-- A summary table row for the rune craft materials category (labels applied
to the craft type and quality codes, per the source). -/
structure SummaryCraftRow where
  ctype : String
  rune : Nat
  quality : String
  count : Nat
deriving DecidableEq, Inhabited, Repr

/-- A summary table row for the secret dungeon unlocks category. -/
structure SummarySecretRow where
  name : String
  element : String
  icon : String
  count : Nat
deriving DecidableEq, Inhabited, Repr

/-- The per-category table data of the summary (shape varies by category). -/
inductive TableData where
  | items (rows : List SummaryItemRow)
  | monsters (rows : List SummaryMonsterRow)
  | pieces (rows : List SummaryPieceRow)
  | runes (sets : List (String × Nat)) (slots : List (Nat × Nat))
      (quality : List (String × Nat))
  | crafts (rows : List SummaryCraftRow)
  | secret (rows : List SummarySecretRow)
deriving DecidableEq, Inhabited, Repr

/-- Python truthiness of table data: an empty row list is falsy and omitted
from the summary table; the rune table is a three-key dict, always truthy. -/
def TableData.truthy : TableData → Bool
  | .items rows => !rows.isEmpty
  | .monsters rows => !rows.isEmpty
  | .pieces rows => !rows.isEmpty
  | .runes _ _ _ => true
  | .crafts rows => !rows.isEmpty
  | .secret rows => !rows.isEmpty

/-- A drop record queryset of one of the six categories, as produced by the
drop category resolver. -/
inductive DropQS where
  | items (l : List ItemDrop)
  | monsters (l : List MonsterDrop)
  | pieces (l : List MonsterPieceDrop)
  | runes (l : List RuneDrop)
  | crafts (l : List RuneCraftDrop)
  | secret (l : List SecretDungeonDrop)
deriving DecidableEq, Inhabited, Repr

/-- COUNT over the primary key of any drop queryset. -/
def DropQS.count : DropQS → Nat
  | .items l => l.length
  | .monsters l => l.length
  | .pieces l => l.length
  | .runes l => l.length
  | .crafts l => l.length
  | .secret l => l.length

/-- The combined summary: the chart list plus the by-category table. -/
structure Summary where
  table : List (String × TableData)
  chart : List ChartEntry
deriving DecidableEq, Inhabited, Repr

/-- Items chart rows: currency excluded, grouped by item name, positive
counts only, ordered by descending count. -/
def itemChartData (qs : List ItemDrop) : List ChartEntry :=
  sortLe (fun a b => decide (b.count ≤ a.count))
    (((groupBy (fun d => d.itemName)
        (qs.filter (fun d => decide (¬ d.itemCategory = CATEGORY_CURRENCY)))).map
      (fun g => ChartEntry.mk g.1 g.2.length)).filter
      (fun e => decide (0 < e.count)))

/-- Items table rows: grouped by (name, icon) with the category column joined
in by the ORDER BY, positive counts, ordered by category then descending
count. -/
def itemTableData (qs : List ItemDrop) (total_log_count : Nat) :
    List SummaryItemRow :=
  (sortLe (fun a b =>
      decide (a.1 < b.1 ∨ (a.1 = b.1 ∧ b.2.count ≤ a.2.count)))
    (((groupBy (fun d => (d.itemCategory, d.itemName, d.itemIcon)) qs).map
      (fun g => (g.1.1, SummaryItemRow.mk g.1.2.1 g.1.2.2 g.2.length
        ((g.2.map (fun d => d.quantity)).min?)
        ((g.2.map (fun d => d.quantity)).max?)
        (avgQ (g.2.map (fun d => d.quantity)))
        ((g.2.length : ℚ) / (total_log_count : ℚ) * 100)
        (if g.2.length = 0 then none
         else some (((g.2.map (fun d => d.quantity)).sum : ℚ)
           / (total_log_count : ℚ)))))).filter
      (fun p => decide (0 < p.2.count)))).map (fun p => p.2)

/-- Monsters chart rows: counted by dropped star grade label. -/
def monsterChartData (qs : List MonsterDrop) : List ChartEntry :=
  sortLe (fun a b => decide (b.count ≤ a.count))
    (((groupBy (fun d => toString d.grade ++ "⭐ Monster") qs).map
      (fun g => ChartEntry.mk g.1 g.2.length)).filter
      (fun e => decide (0 < e.count)))

/-- The seven joined monster attributes the monsters summary table groups
by. -/
structure MonsterTableKey where
  name : String
  slug : String
  icon : String
  element : String
  can_awaken : Bool
  is_awakened : Bool
  stars : Nat
deriving DecidableEq, Inhabited, Repr

/-- Monsters table rows: grouped by the seven joined monster attributes, with
the element labelled afterwards. -/
def monsterTableData (qs : List MonsterDrop) (total_log_count : Nat) :
    List SummaryMonsterRow :=
  (groupBy (fun d => MonsterTableKey.mk d.monsterName d.monsterSlug
      d.monsterIcon d.monsterElement d.monsterCanAwaken d.monsterIsAwakened
      d.monsterBaseStars) qs).map
    (fun g => SummaryMonsterRow.mk g.1.name g.1.slug g.1.icon
      (choiceLabel monsterElementChoices g.1.element)
      g.1.can_awaken g.1.is_awakened g.1.stars g.2.length
      ((g.2.length : ℚ) / (total_log_count : ℚ) * 100))

/-- Monster pieces table rows. -/
def pieceTableData (qs : List MonsterPieceDrop) : List SummaryPieceRow :=
  (groupBy (fun d => (d.monsterName, d.monsterIcon, d.monsterElement)) qs).map
    (fun g => SummaryPieceRow.mk g.1.1 g.1.2.1
      (choiceLabel monsterElementChoices g.1.2.2) g.2.length
      ((g.2.map (fun d => d.quantity)).min?)
      ((g.2.map (fun d => d.quantity)).max?)
      (avgQ (g.2.map (fun d => d.quantity))))

/-- Runes summary table: the sets, slots and quality breakdowns, each ordered
by its code with labels applied afterwards. -/
def runeTableData (qs : List RuneDrop) : TableData :=
  TableData.runes
    ((sortLe (fun a b => decide (a.1 ≤ b.1))
      ((groupBy (fun r => r.rtype) qs).map (fun g => (g.1, g.2.length)))).map
      (fun p => (choiceLabel runeTypeChoices p.1, p.2)))
    (sortLe (fun a b => decide (a.1 ≤ b.1))
      ((groupBy (fun r => r.slot) qs).map (fun g => (g.1, g.2.length))))
    ((sortLe (fun a b => decide (a.1 ≤ b.1))
      ((groupBy (fun r => r.quality) qs).map (fun g => (g.1, g.2.length)))).map
      (fun p => (choiceLabel runeQualityChoices p.1, p.2)))

/-- Rune craft materials table rows: grouped by (type, rune, quality),
ordered lexicographically, labels applied afterwards. -/
def craftTableData (qs : List RuneCraftDrop) : List SummaryCraftRow :=
  (sortLe (fun a b => decide (a.1.1 < b.1.1 ∨ (a.1.1 = b.1.1 ∧
      (a.1.2.1 < b.1.2.1 ∨ (a.1.2.1 = b.1.2.1 ∧ a.1.2.2 ≤ b.1.2.2)))))
    ((groupBy (fun d => (d.ctype, d.rune, d.quality)) qs).map
      (fun g => (g.1, g.2.length)))).map
    (fun p => SummaryCraftRow.mk (choiceLabel runeTypeChoices p.1.1) p.1.2.1
      (choiceLabel runeQualityChoices p.1.2.2) p.2)

/-- Secret dungeon unlocks table rows. -/
def secretTableData (qs : List SecretDungeonDrop) : List SummarySecretRow :=
  (groupBy (fun d => (d.monsterName, d.monsterElement, d.monsterIcon)) qs).map
    (fun g => SummarySecretRow.mk g.1.1
      (choiceLabel monsterElementChoices g.1.2.1) g.1.2.2 g.2.length)

/-- One loop iteration of `get_report_summary`: the chart rows and table data
for one (drop type, queryset) pair.  The final branch is the
NotImplementedError raised by the source for an unrecognised drop type; a
recognised key reaching a queryset of a different category would be a type
error in the dynamically-typed source and is likewise an error value here. -/
def summaryStep (drop_type : String) (qs : DropQS) (total_log_count : Nat) :
    Except String (List ChartEntry × TableData) :=
  if drop_type = itemsRelatedName then
    match qs with
    | .items l =>
        .ok (itemChartData l, TableData.items (itemTableData l total_log_count))
    | _ => .error "AttributeError"
  else if drop_type = monstersRelatedName then
    match qs with
    | .monsters l =>
        .ok (monsterChartData l,
          TableData.monsters (monsterTableData l total_log_count))
    | _ => .error "AttributeError"
  else
    let item_name := chartName drop_type
    let count := qs.count
    let chart_data :=
      if 0 < count then [ChartEntry.mk item_name count] else []
    if drop_type = monsterPiecesRelatedName then
      match qs with
      | .pieces l => .ok (chart_data, TableData.pieces (pieceTableData l))
      | _ => .error "AttributeError"
    else if drop_type = runesRelatedName then
      match qs with
      | .runes l => .ok (chart_data, runeTableData l)
      | _ => .error "AttributeError"
    else if drop_type = runeCraftsRelatedName then
      match qs with
      | .crafts l => .ok (chart_data, TableData.crafts (craftTableData l))
      | _ => .error "AttributeError"
    else if drop_type = secretDungeonsRelatedName then
      match qs with
      | .secret l => .ok (chart_data, TableData.secret (secretTableData l))
      | _ => .error "AttributeError"
    else
      .error ("No summary table generation for " ++ drop_type)

/-- `get_report_summary` from `generate.py`: folds the (drop type, queryset)
pairs, concatenating chart rows in iteration order and inserting the table
data of each truthy category; an error (such as the NotImplementedError for
an unrecognised drop type) aborts the whole summary as the raised exception
does in the source. -/
def get_report_summary (drops : List (String × DropQS))
    (total_log_count : Nat) : Except String Summary :=
  match drops with
  | [] => Except.ok ⟨[], []⟩
  | (k, qs) :: rest =>
      match summaryStep k qs total_log_count with
      | .error e => .error e
      | .ok step =>
          match get_report_summary rest total_log_count with
          | .error e => .error e
          | .ok s =>
              .ok ⟨if step.2.truthy then (k, step.2) :: s.table else s.table,
                   step.1 ++ s.chart⟩

/-! ## Drop Category Resolver, Level Report, Orchestrators -/

instance exceptDecEq {ε α : Type} [DecidableEq ε] [DecidableEq α] :
    DecidableEq (Except ε α) := fun a b =>
  match a, b with
  | .error e, .error f =>
      if h : e = f then .isTrue (congrArg Except.error h)
      else .isFalse (fun c => h (Except.error.inj c))
  | .ok x, .ok y =>
      if h : x = y then .isTrue (congrArg Except.ok h)
      else .isFalse (fun c => h (Except.ok.inj c))
  | .error _, .ok _ => .isFalse (fun c => Except.noConfusion c)
  | .ok _, .error _ => .isFalse (fun c => Except.noConfusion c)

/-- The drop tables that exist for a log record model (the `hasattr` check of
the source): a category the log type does not support is `none`; a supported
category carries that drop table's rows, to be filtered by `log__in`. -/
structure DropSources where
  items : Option (List ItemDrop)
  monsters : Option (List MonsterDrop)
  monster_pieces : Option (List MonsterPieceDrop)
  runes : Option (List RuneDrop)
  rune_crafts : Option (List RuneCraftDrop)
  secret_dungeons : Option (List SecretDungeonDrop)
deriving DecidableEq, Inhabited, Repr

/-- `get_drop_querysets` from `generate.py`: for each supported category, in
the fixed DROP_TYPES order, the drop rows whose log record is in `qs`. -/
def get_drop_querysets (src : DropSources) (qs : List LogRecord) :
    List (String × DropQS) :=
  (match src.items with
   | some l => [(itemsRelatedName,
       DropQS.items (l.filter (fun d => decide (d.log ∈ qs))))]
   | none => [])
  ++ (match src.monsters with
   | some l => [(monstersRelatedName,
       DropQS.monsters (l.filter (fun d => decide (d.log ∈ qs))))]
   | none => [])
  ++ (match src.monster_pieces with
   | some l => [(monsterPiecesRelatedName,
       DropQS.pieces (l.filter (fun d => decide (d.log ∈ qs))))]
   | none => [])
  ++ (match src.runes with
   | some l => [(runesRelatedName,
       DropQS.runes (l.filter (fun d => decide (d.log ∈ qs))))]
   | none => [])
  ++ (match src.rune_crafts with
   | some l => [(runeCraftsRelatedName,
       DropQS.crafts (l.filter (fun d => decide (d.log ∈ qs))))]
   | none => [])
  ++ (match src.secret_dungeons with
   | some l => [(secretDungeonsRelatedName,
       DropQS.secret (l.filter (fun d => decide (d.log ∈ qs))))]
   | none => [])

/-- The items queryset of a resolved drops dict, when present. -/
def lookupItems (drops : List (String × DropQS)) : Option (List ItemDrop) :=
  match drops.lookup itemsRelatedName with
  | some (DropQS.items l) => some l
  | _ => none

/-- The monsters queryset of a resolved drops dict, when present. -/
def lookupMonsters (drops : List (String × DropQS)) :
    Option (List MonsterDrop) :=
  match drops.lookup monstersRelatedName with
  | some (DropQS.monsters l) => some l
  | _ => none

/-- The monster pieces queryset of a resolved drops dict, when present. -/
def lookupPieces (drops : List (String × DropQS)) :
    Option (List MonsterPieceDrop) :=
  match drops.lookup monsterPiecesRelatedName with
  | some (DropQS.pieces l) => some l
  | _ => none

/-- The runes queryset of a resolved drops dict, when present. -/
def lookupRunes (drops : List (String × DropQS)) : Option (List RuneDrop) :=
  match drops.lookup runesRelatedName with
  | some (DropQS.runes l) => some l
  | _ => none

/-- The rune crafts queryset of a resolved drops dict, when present. -/
def lookupCrafts (drops : List (String × DropQS)) :
    Option (List RuneCraftDrop) :=
  match drops.lookup runeCraftsRelatedName with
  | some (DropQS.crafts l) => some l
  | _ => none

/-- The secret dungeons queryset of a resolved drops dict, when present. -/
def lookupSecret (drops : List (String × DropQS)) :
    Option (List SecretDungeonDrop) :=
  match drops.lookup secretDungeonsRelatedName with
  | some (DropQS.secret l) => some l
  | _ => none

/-- The per-level report dict built by `level_drop_report`: the summary plus
one entry per supported category.  The source rebinds `qs` in its loop, so
each aggregator receives its own drop queryset count as the
`total_log_count` argument; only the summary receives the log record
count. -/
structure LevelDropReport where
  summary : Except String Summary
  items : Option (Option (List ItemReportRow))
  monsters : Option (Option MonsterReport)
  monster_pieces : Option StubReport
  runes : Option (Option RuneReport)
  rune_crafts : Option StubReport
  secret_dungeons : Option StubReport
deriving DecidableEq, Inhabited, Repr

/-- `level_drop_report` from `generate.py`. -/
def level_drop_report (src : DropSources) (qs : List LogRecord) :
    LevelDropReport :=
  let drops := get_drop_querysets src qs
  ⟨get_report_summary drops qs.length,
   (lookupItems drops).map (fun l => get_item_report l l.length),
   (lookupMonsters drops).map (fun l => get_monster_report l l.length),
   (lookupPieces drops).map (fun l => get_monster_piece_report l l.length),
   (lookupRunes drops).map (fun l => get_rune_report l l.length),
   (lookupCrafts drops).map (fun l => get_rune_craft_report l l.length),
   (lookupSecret drops).map (fun l => get_secret_dungeon_report l l.length)⟩

/-- One drops entry of the cross-grade summary.  Item entries use the
quantity aggregates; monster entries carry stars and no quantity aggregates
(their absent dict keys are `none` here). -/
structure GradeDropEntry where
  dtype : String
  name : String
  icon : String
  stars : Option Nat
  count : Nat
  min : Option Nat
  max : Option Nat
  avg : Option ℚ
  drop_chance : ℚ
  avg_per_run : Option ℚ
deriving DecidableEq, Inhabited, Repr

/-- One grade of the cross-grade summary. -/
structure GradeSummary where
  grade : String
  drops : List GradeDropEntry
deriving DecidableEq, Inhabited, Repr

/-- The aggregate entry of one catalog item within one grade of the
cross-grade summary; the denominator `total` is the record count across all
grades (`qs.count()` in the source). -/
def gsItemEntry (itemsQs : List ItemDrop) (grade_qs : List LogRecord)
    (total : Nat) (gi : GameItem) : GradeDropEntry :=
  let matching := itemsQs.filter
    (fun d => decide (d.log ∈ grade_qs ∧ d.item = gi.pk))
  ⟨"item", gi.name, gi.icon, none, matching.length,
   (matching.map (fun d => d.quantity)).min?,
   (matching.map (fun d => d.quantity)).max?,
   avgQ (matching.map (fun d => d.quantity)),
   (matching.length : ℚ) / (total : ℚ) * 100,
   if matching.length = 0 then none
   else some (((matching.map (fun d => d.quantity)).sum : ℚ) / (total : ℚ))⟩

/-- The aggregate entry of one catalog monster within one grade of the
cross-grade summary; the denominator `total` is the record count across all
grades. -/
def gsMonsterEntry (monstersQs : List MonsterDrop) (grade_qs : List LogRecord)
    (total : Nat) (m : MonsterCatalogRow) : GradeDropEntry :=
  let matching := monstersQs.filter
    (fun d => decide (d.log ∈ grade_qs ∧ d.monster = m.pk))
  ⟨"monster", m.name, m.image_filename, some m.base_stars, matching.length,
   none, none, none,
   (matching.length : ℚ) / (total : ℚ) * 100,
   none⟩

/-- `grade_summary_report` from `generate.py`: for every configured grade,
the per-grade aggregates of every item and monster seen in any grade.
`gameItems` and `monsterCatalog` are the catalog tables the `pk__in` queries
run against. -/
def grade_summary_report (gameItems : List GameItem)
    (monsterCatalog : List MonsterCatalogRow) (src : DropSources)
    (qs : List LogRecord) (grade_choices : List (Nat × String)) :
    List GradeSummary :=
  let drops := get_drop_querysets src qs
  let all_items : List GameItem := match lookupItems drops with
    | some l => gameItems.filter
        (fun gi => decide (gi.pk ∈ l.map (fun d => d.item)))
    | none => []
  let all_monsters : List MonsterCatalogRow := match lookupMonsters drops with
    | some l => monsterCatalog.filter
        (fun m => decide (m.pk ∈ l.map (fun d => d.monster)))
    | none => []
  grade_choices.map (fun gc =>
    let grade_qs := qs.filter (fun r => decide (r.grade = gc.1))
    ⟨gc.2,
     all_items.map (gsItemEntry ((lookupItems drops).getD []) grade_qs
       qs.length)
     ++ all_monsters.map (gsMonsterEntry ((lookupMonsters drops).getD [])
       grade_qs qs.length)⟩)

/-- A persisted LevelReport row: time range, counts and payload. -/
structure PersistedReport (π : Type) where
  start_timestamp : Int
  end_timestamp : Int
  log_count : Nat
  unique_contributors : Nat
  report : π
deriving DecidableEq, Inhabited, Repr

/-- The default report timespan: two weeks in seconds. -/
def REPORT_TIMESPAN : Int := 1209600

/-- The default minimum record count. -/
def MINIMUM_COUNT : Nat := 2500

/-- `generate_dungeon_log_reports` from `generate.py`, restricted to one
level: windows the successful records and persists a report exactly when the
window is non-empty.  `logs` is the stream of the level's records, most
recent first. -/
def generate_dungeon_log_report (src : DropSources) (logs : List LogRecord)
    (now : Int) : Option (PersistedReport LevelDropReport) :=
  let records := recordsToReport (logs.filter (fun r => r.success)) now
    REPORT_TIMESPAN MINIMUM_COUNT
  if 0 < records.length then
    some ⟨(records.getLastD default).timestamp,
          (records.headD default).timestamp,
          records.length,
          (records.map (fun r => r.wizard_id)).dedup.length,
          level_drop_report src records⟩
  else none

/-- An entry of the persisted rift report payload: one per configured grade,
plus the trailing summary entry. -/
inductive RiftReportEntry where
  | gradeEntry (grade : String) (report : Option LevelDropReport)
  | summaryEntry (grade : String) (report : List GradeSummary)
deriving DecidableEq, Inhabited, Repr

/-- Records in descending timestamp order: the default ordering a (combined)
queryset is evaluated with. -/
def sortByTimestampDesc (l : List LogRecord) : List LogRecord :=
  sortLe (fun a b => decide (b.timestamp ≤ a.timestamp)) l

/-- `generate_rift_dungeon_reports` from `generate.py`, restricted to one
level: one payload entry per configured grade (with a report when that
grade's window is non-empty), then the cross-grade summary entry, persisted
exactly when the union of the windows is non-empty.  The queryset union
`all_records |= records` is modelled as concatenation re-evaluated in the
default most-recent-first order. -/
def generate_rift_dungeon_report (gameItems : List GameItem)
    (monsterCatalog : List MonsterCatalogRow) (src : DropSources)
    (logs : List LogRecord) (now : Int)
    (grade_choices : List (Nat × String)) :
    Option (PersistedReport (List RiftReportEntry)) :=
  let windows := grade_choices.map (fun gc =>
    recordsToReport (logs.filter (fun r => decide (r.grade = gc.1))) now
      REPORT_TIMESPAN MINIMUM_COUNT)
  let entries := (grade_choices.zip windows).map (fun p =>
    RiftReportEntry.gradeEntry p.1.2
      (if 0 < p.2.length then some (level_drop_report src p.2) else none))
  let all_records := sortByTimestampDesc (windows.flatMap id)
  if 0 < all_records.length then
    some ⟨(all_records.getLastD default).timestamp,
          (all_records.headD default).timestamp,
          all_records.length,
          (all_records.map (fun r => r.wizard_id)).dedup.length,
          entries ++ [RiftReportEntry.summaryEntry "summary"
            (grade_summary_report gameItems monsterCatalog src all_records
              grade_choices)]⟩
  else none

/-! ## Derived definitions used in the claim statements -/

/-- The six recognised drop category keys of the summary composer. -/
def recognizedDropTypes : List String :=
  [itemsRelatedName, monstersRelatedName, monsterPiecesRelatedName,
   runesRelatedName, runeCraftsRelatedName, secretDungeonsRelatedName]

/-- A (drop type, queryset) pair is well formed when the key is the
RELATED_NAME of the queryset's own category, as the resolver produces
them. -/
def wellFormedPair : String × DropQS → Prop
  | (k, DropQS.items _) => k = itemsRelatedName
  | (k, DropQS.monsters _) => k = monstersRelatedName
  | (k, DropQS.pieces _) => k = monsterPiecesRelatedName
  | (k, DropQS.runes _) => k = runesRelatedName
  | (k, DropQS.crafts _) => k = runeCraftsRelatedName
  | (k, DropQS.secret _) => k = secretDungeonsRelatedName

/-- The total membership count of a histogram: the sum over all (bin, slice)
cells. -/
def cellSum (data : List (α × List (Nat × Nat))) : Nat :=
  (data.map (fun e => (e.2.map (fun c => c.2)).sum)).sum

/-! ## Concrete instances used by the witnesses and counterexamples -/

/-- A concrete successful log record with grade 1. -/
def exLog1 : LogRecord := ⟨1, 10, 1, true, 1⟩

/-- A second concrete log record with a different grade and wizard. -/
def exLog2 : LogRecord := ⟨2, 9, 2, true, 2⟩

/-- A failed log record. -/
def exLogFail : LogRecord := ⟨3, 8, 1, false, 1⟩

/-- Item drops for the C4 counterexample: two drops of one item awarded by
the same single run. -/
def c4qs : List ItemDrop :=
  [⟨exLog1, 7, "Crystal", "icon_c", 0, 1⟩,
   ⟨exLog1, 7, "Crystal", "icon_c", 0, 2⟩]

/-- Rune drops for the C6 witness. -/
def c6runes : List RuneDrop :=
  [⟨exLog1, 6, 1, 2, 3, 1, 0, [2, 4, 5], (80 : ℚ), 1700⟩,
   ⟨exLog1, 5, 2, 1, 1, 3, 2, [7], (55 : ℚ), 520⟩]

/-- The single rune of the C5 counterexample: its sell value equals one
multiple of 1000, so the derived bin list is empty. -/
def c5rune : RuneDrop := ⟨exLog1, 6, 1, 2, 3, 1, 0, [2], (50 : ℚ), 1000⟩

/-- Rune drops for the C5 witness: values spanning two thousands. -/
def c5runes : List RuneDrop :=
  [⟨exLog1, 6, 1, 2, 3, 1, 0, [2], (50 : ℚ), 520⟩,
   ⟨exLog1, 5, 2, 1, 1, 3, 2, [7], (55 : ℚ), 1700⟩]

/-- Drop sources with one item drop table and two drops. -/
def exSrcItems : DropSources :=
  ⟨some [⟨exLog1, 7, "Crystal", "icon_c", 0, 1⟩,
         ⟨exLog2, 7, "Crystal", "icon_c", 0, 2⟩],
   none, none, none, none, none⟩

/-- Drop sources with no drop tables. -/
def exSrcEmpty : DropSources := ⟨none, none, none, none, none, none⟩

/-- A game item catalog with the single item 7. -/
def exGameItems : List GameItem := [⟨7, "Crystal", "icon_c", 0⟩]

/-- Drop sources for the C10 witness: one item drop awarded by the grade 1
record only. -/
def c10src : DropSources :=
  ⟨some [⟨exLog1, 7, "Crystal", "icon_c", 0, 1⟩], none, none, none, none, none⟩

/-- The cross-grade summary of the C10 witness: two grades, two records in
total, the item dropping in grade 1 only. -/
def c10report : List GradeSummary :=
  grade_summary_report exGameItems [] c10src [exLog1, exLog2]
    [(1, "A"), (2, "B")]

/-! ## Theorems -/

theorem mem_insertLe (le : α → α → Bool) (x a : α) (l : List α) :
    a ∈ insertLe le x l ↔ a = x ∨ a ∈ l := by
  induction l with
  | nil => simp [insertLe]
  | cons y ys ih =>
      by_cases h : le x y
      · simp [insertLe, h]
      · simp [insertLe, h, ih]
        tauto

theorem mem_sortLe (le : α → α → Bool) (a : α) (l : List α) :
    a ∈ sortLe le l ↔ a ∈ l := by
  induction l with
  | nil => simp [sortLe]
  | cons x xs ih => simp [sortLe, mem_insertLe, ih]

theorem length_insertLe (le : α → α → Bool) (x : α) (l : List α) :
    (insertLe le x l).length = l.length + 1 := by
  induction l with
  | nil => simp [insertLe]
  | cons y ys ih =>
      by_cases h : le x y
      · simp [insertLe, h]
      · simp [insertLe, h, ih]

theorem length_sortLe (le : α → α → Bool) (l : List α) :
    (sortLe le l).length = l.length := by
  induction l with
  | nil => simp [sortLe]
  | cons x xs ih => simp [sortLe, length_insertLe, ih]

/-- GROUP BY: the distinct keys of `l` under `key`, each with the sublist of
rows having that key. -/

theorem mem_groupBy [DecidableEq κ] (key : α → κ) (l : List α)
    (k : κ) (g : List α) (h : (k, g) ∈ groupBy key l) :
    g = l.filter (fun x => decide (key x = k)) := by
  rcases List.mem_map.mp h with ⟨k0, _, hk⟩
  cases hk
  rfl

theorem groupBy_group_key [DecidableEq κ] (key : α → κ) (l : List α)
    (k : κ) (g : List α) (h : (k, g) ∈ groupBy key l) :
    ∀ x ∈ g, key x = k := by
  intro x hx
  rw [mem_groupBy key l k g h] at hx
  simpa using (List.mem_filter.mp hx).2

theorem recordsToReport_sublist (qs : List LogRecord) (now tspan : Int)
    (m : Nat) : (recordsToReport qs now tspan m).Sublist qs := by
  unfold recordsToReport
  dsimp only
  split
  · split
    · split
      · exact List.filter_sublist qs
      · exact List.Sublist.refl qs
    · exact List.Sublist.refl qs
  · exact List.filter_sublist qs

theorem recordsToReport_subset (qs : List LogRecord) (now tspan : Int)
    (m : Nat) : ∀ r ∈ recordsToReport qs now tspan m, r ∈ qs :=
  fun _ hr => (recordsToReport_sublist qs now tspan m).mem hr

theorem recordsToReport_sortedDesc (qs : List LogRecord) (now tspan : Int)
    (m : Nat) (h : sortedDesc qs) :
    sortedDesc (recordsToReport qs now tspan m) :=
  List.Pairwise.sublist (recordsToReport_sublist qs now tspan m) h

theorem recordsToReport_nil (now tspan : Int) (m : Nat) :
    recordsToReport [] now tspan m = [] := by
  have h := recordsToReport_sublist [] now tspan m
  exact List.sublist_nil.mp h

theorem mem_of_getLast?_eq {α : Type} {l : List α} {a : α}
    (h : l.getLast? = some a) : a ∈ l := by
  cases l with
  | nil => simp at h
  | cons x xs =>
      have hne : x :: xs ≠ [] := List.cons_ne_nil x xs
      rw [List.getLast?_eq_getLast_of_ne_nil hne] at h
      injection h with h2
      rw [← h2]
      exact List.getLast_mem hne

theorem sortedDesc_getLast?_min (l : List LogRecord) (e : LogRecord)
    (hs : sortedDesc l) (hl : l.getLast? = some e) :
    ∀ x ∈ l, e.timestamp ≤ x.timestamp := by
  induction l with
  | nil => simp at hl
  | cons a t ih =>
      cases t with
      | nil =>
          have : a = e := by
            rw [List.getLast?_eq_getLast_of_ne_nil (List.cons_ne_nil a [])] at hl
            exact Option.some.inj hl
          subst this
          simp
      | cons b t2 =>
          rw [List.getLast?_cons_cons] at hl
          rcases List.pairwise_cons.mp hs with ⟨ha, hrest⟩
          have hmem := ih hrest hl
          intro x hx
          rcases List.mem_cons.mp hx with hxa | hxt
          · subst hxa
            have he : e ∈ b :: t2 := mem_of_getLast?_eq hl
            exact le_trans (hmem e he) (ha e he)
          · exact hmem x hxt

/-- On a most-recent-first stream with pairwise-distinct timestamps, keeping
every record stamped no earlier than the last record of the first `M` yields
exactly the first `M` records. -/
theorem sorted_nodup_filter_take (qs : List LogRecord) (M : Nat)
    (e : LogRecord) (hs : sortedDesc qs)
    (hnd : (qs.map (fun r => r.timestamp)).Nodup)
    (hl : (qs.take M).getLast? = some e) :
    qs.filter (fun r => decide (e.timestamp ≤ r.timestamp)) = qs.take M := by
  induction qs generalizing M with
  | nil => simp at hl
  | cons r rs ih =>
      cases M with
      | zero => simp at hl
      | succ M' =>
          rw [List.take_succ_cons] at hl ⊢
          rcases List.pairwise_cons.mp hs with ⟨hhead, htail⟩
          simp only [List.map_cons, List.nodup_cons] at hnd
          rcases hnd with ⟨hts, hndtail⟩
          cases htake : rs.take M' with
          | nil =>
              rw [htake] at hl
              have her : r = e := by
                rw [List.getLast?_eq_getLast_of_ne_nil (List.cons_ne_nil r [])] at hl
                exact Option.some.inj hl
              subst her
              rw [List.filter_cons, if_pos (decide_eq_true (le_refl r.timestamp))]
              have hnone : rs.filter (fun x => decide (r.timestamp ≤ x.timestamp)) = [] := by
                apply List.filter_eq_nil_iff.mpr
                intro x hx
                have hle : x.timestamp ≤ r.timestamp := hhead x hx
                have hne : x.timestamp ≠ r.timestamp := by
                  intro hcontra
                  exact hts (List.mem_map.mpr ⟨x, hx, hcontra⟩)
                simp only [decide_eq_true_eq]
                exact not_le.mpr (lt_of_le_of_ne hle hne)
              rw [hnone]
          | cons c t2 =>
              rw [htake] at hl
              rw [List.getLast?_cons_cons] at hl
              have hl2 : (rs.take M').getLast? = some e := by rw [htake]; exact hl
              have hrec := ih M' htail hndtail hl2
              have hemem : e ∈ rs := by
                have hmem0 : e ∈ rs.take M' := mem_of_getLast?_eq hl2
                exact (List.take_sublist M' rs).mem hmem0
              have hkeep : e.timestamp ≤ r.timestamp := hhead e hemem
              rw [List.filter_cons, if_pos (decide_eq_true hkeep), hrec, htake]

/-- C1 (amended): on a most-recent-first stream, when the time-span-filtered
count reaches the minimum the window is exactly the time filter; an empty
stream gives an empty window; otherwise the window contains the first
min(M, total) records and is a sub-stream of the input, and it equals exactly
the first min(M, total) records whenever timestamps are pairwise distinct
(with ties at the boundary timestamp the window is strictly larger, as the
counterexample shows). -/
theorem C1_window_selector (qs : List LogRecord) (now tspan : Int) (M : Nat)
    (hs : sortedDesc qs) :
    (¬ (qs.filter (fun r => decide (now - tspan ≤ r.timestamp))).length < M →
      recordsToReport qs now tspan M
        = qs.filter (fun r => decide (now - tspan ≤ r.timestamp)))
    ∧ (qs = [] → recordsToReport qs now tspan M = [])
    ∧ ((qs.filter (fun r => decide (now - tspan ≤ r.timestamp))).length < M →
        (∀ r ∈ qs.take M, r ∈ recordsToReport qs now tspan M)
        ∧ (recordsToReport qs now tspan M).Sublist qs
        ∧ ((qs.map (fun r => r.timestamp)).Nodup →
            recordsToReport qs now tspan M = qs.take M)) := by
  refine ⟨?_, ?_, ?_⟩
  · intro hge
    unfold recordsToReport
    rw [if_neg hge]
  · intro hnil
    subst hnil
    exact recordsToReport_nil now tspan M
  · intro hlt
    have hres : recordsToReport qs now tspan M
        = if (qs.take M).length > 0 then
            match (qs.take M).getLast? with
            | some earliest =>
                qs.filter (fun r => decide (earliest.timestamp ≤ r.timestamp))
            | none => qs
          else qs := by
      unfold recordsToReport
      rw [if_pos hlt]
    by_cases hq : qs.take M = []
    · have hqnil : qs = [] := by
        rcases List.take_eq_nil_iff.mp hq with h | h
        · subst h
          simp at hlt
        · exact h
      subst hqnil
      refine ⟨by simp, ?_, ?_⟩
      · rw [recordsToReport_nil]
      · intro _
        rw [recordsToReport_nil]
        simp
    · have hlast := List.getLast?_eq_getLast_of_ne_nil hq
      set e := (qs.take M).getLast hq with he
      have hlen : (qs.take M).length > 0 := List.length_pos.mpr hq
      have hres2 : recordsToReport qs now tspan M
          = qs.filter (fun r => decide (e.timestamp ≤ r.timestamp)) := by
        rw [hres, if_pos hlen, hlast]
      refine ⟨?_, ?_, ?_⟩
      · intro r hr
        rw [hres2]
        apply List.mem_filter.mpr
        refine ⟨(List.take_sublist M qs).mem hr, ?_⟩
        simp only [decide_eq_true_eq]
        have hsorted_take : sortedDesc (qs.take M) :=
          List.Pairwise.sublist (List.take_sublist M qs) hs
        exact sortedDesc_getLast?_min (qs.take M) e hsorted_take hlast r hr
      · rw [hres2]
        exact List.filter_sublist qs
      · intro hnd
        rw [hres2]
        exact sorted_nodup_filter_take qs M e hs hnd hlast

/-- Concrete records for the C1 theorems: distinct timestamps. -/

theorem C1_window_selector_witness :
    recordsToReport c1ExDistinct 100 1 2 = c1ExDistinct.take 2 :=
  ((C1_window_selector c1ExDistinct 100 1 2 (by decide)).2.2
    (by decide)).2.2 (by decide)


/-- C1 counterexample: with minimum count 2 and three available records of
which the 2nd and 3rd share a timestamp outside the time span, the selected
window has 3 records, not min(2, 3) = 2 — the claim that the count-bounded
window consists of exactly the min(M, total) most-recent records is false. -/
theorem C1_window_selector_counterexample :
    (recordsToReport c1ExTied 100 1 2).length ≠ min 2 c1ExTied.length := by
  decide

/-- C2 (amended): the item, monster and rune aggregators return None exactly
on an empty handle and a structured statistics object otherwise; the
monster-piece, rune-craft-material and secret-dungeon-unlock aggregators are
placeholders that return a fixed string for every input — never None and
never a category-specific statistics object. -/
theorem C2_category_aggregators (total : Nat) :
    get_item_report [] total = none
    ∧ get_monster_report [] total = none
    ∧ get_rune_report [] total = none
    ∧ (∀ qs : List ItemDrop, qs ≠ [] →
        (get_item_report qs total).isSome = true)
    ∧ (∀ qs : List MonsterDrop, qs ≠ [] →
        (get_monster_report qs total).isSome = true)
    ∧ (∀ qs : List RuneDrop, qs ≠ [] →
        (get_rune_report qs total).isSome = true)
    ∧ (∀ qs : List MonsterPieceDrop,
        get_monster_piece_report qs total
          = StubReport.pyStr "monster piece report")
    ∧ (∀ qs : List RuneCraftDrop,
        get_rune_craft_report qs total = StubReport.pyStr "rune craft report")
    ∧ (∀ qs : List SecretDungeonDrop,
        get_secret_dungeon_report qs total
          = StubReport.pyStr "secret dungeon report") := by
  refine ⟨rfl, rfl, rfl, ?_, ?_, ?_, fun _ => rfl, fun _ => rfl, fun _ => rfl⟩
  · intro qs hqs
    unfold get_item_report
    rw [if_neg (fun h => hqs (List.length_eq_zero.mp h))]
    rfl
  · intro qs hqs
    unfold get_monster_report
    rw [if_neg (fun h => hqs (List.length_eq_zero.mp h))]
    rfl
  · intro qs hqs
    unfold get_rune_report
    rw [if_neg (fun h => hqs (List.length_eq_zero.mp h))]
    rfl

theorem C2_category_aggregators_witness :
    (get_item_report [⟨exLog1, 7, "Crystal", "icon_c", 0, 3⟩] 5).isSome
      = true :=
  (C2_category_aggregators 5).2.2.2.1 [⟨exLog1, 7, "Crystal", "icon_c", 0, 3⟩]
    (by decide)

/-- C2 counterexample: the monster piece aggregator applied to an empty
handle returns the fixed placeholder string, not None — so the claim that
every category aggregator returns None on an empty handle (and a structured
statistics object otherwise) is false. -/
theorem C2_category_aggregators_counterexample :
    get_monster_piece_report ([] : List MonsterPieceDrop) 0
      = StubReport.pyStr "monster piece report"
    ∧ StubReport.pyStr "monster piece report" ≠ StubReport.pyNone := by
  exact ⟨rfl, by decide⟩

theorem summaryStep_unrecognized (k : String) (qs : DropQS) (total : Nat)
    (h : k ∉ recognizedDropTypes) :
    summaryStep k qs total
      = .error ("No summary table generation for " ++ k) := by
  simp only [recognizedDropTypes, List.mem_cons, List.not_mem_nil, or_false,
    not_or] at h
  obtain ⟨h1, h2, h3, h4, h5, h6⟩ := h
  unfold summaryStep
  rw [if_neg h1, if_neg h2]
  dsimp only
  rw [if_neg h3, if_neg h4, if_neg h5, if_neg h6]

theorem summaryStep_wellFormed_ok (k : String) (qs : DropQS) (total : Nat)
    (h : wellFormedPair (k, qs)) :
    ∃ r, summaryStep k qs total = .ok r := by
  cases qs with
  | items l =>
      have hk : k = itemsRelatedName := h
      subst hk
      exact ⟨_, rfl⟩
  | monsters l =>
      have hk : k = monstersRelatedName := h
      subst hk
      exact ⟨_, rfl⟩
  | pieces l =>
      have hk : k = monsterPiecesRelatedName := h
      subst hk
      exact ⟨_, rfl⟩
  | runes l =>
      have hk : k = runesRelatedName := h
      subst hk
      exact ⟨_, rfl⟩
  | crafts l =>
      have hk : k = runeCraftsRelatedName := h
      subst hk
      exact ⟨_, rfl⟩
  | secret l =>
      have hk : k = secretDungeonsRelatedName := h
      subst hk
      exact ⟨_, rfl⟩

theorem get_report_summary_cons (k : String) (qs : DropQS)
    (rest : List (String × DropQS)) (total : Nat) :
    get_report_summary ((k, qs) :: rest) total
      = match summaryStep k qs total with
        | .error e => .error e
        | .ok step =>
            match get_report_summary rest total with
            | .error e => .error e
            | .ok s =>
                .ok ⟨if step.2.truthy then (k, step.2) :: s.table else s.table,
                     step.1 ++ s.chart⟩ := rfl

theorem get_report_summary_error_of_unrecognized
    (drops : List (String × DropQS)) (total : Nat)
    (h : ∃ p ∈ drops, p.1 ∉ recognizedDropTypes) :
    ∃ e, get_report_summary drops total = .error e := by
  induction drops with
  | nil => simp at h
  | cons hd rest ih =>
      obtain ⟨k, qs⟩ := hd
      obtain ⟨p, hp, hpk⟩ := h
      rcases List.mem_cons.mp hp with hph | hmem
      · subst hph
        exact ⟨_, by rw [get_report_summary_cons,
          summaryStep_unrecognized k qs total hpk]⟩
      · obtain ⟨e, he⟩ := ih ⟨p, hmem, hpk⟩
        cases hstep : summaryStep k qs total with
        | error e2 =>
            exact ⟨e2, by rw [get_report_summary_cons, hstep]⟩
        | ok step =>
            exact ⟨e, by rw [get_report_summary_cons, hstep, he]⟩

theorem get_report_summary_ok_of_wellFormed
    (drops : List (String × DropQS)) (total : Nat)
    (h : ∀ p ∈ drops, wellFormedPair p) :
    ∃ s, get_report_summary drops total = .ok s := by
  induction drops with
  | nil => exact ⟨⟨[], []⟩, rfl⟩
  | cons hd rest ih =>
      obtain ⟨k, qs⟩ := hd
      obtain ⟨r, hr⟩ := summaryStep_wellFormed_ok k qs total
        (h (k, qs) (List.mem_cons_self (k, qs) rest))
      obtain ⟨s, hs⟩ := ih (fun p hp => h p (List.mem_cons_of_mem _ hp))
      exact ⟨_, by rw [get_report_summary_cons, hr, hs]⟩

/-- C8: a drop-category key outside the six recognised keys makes the summary
composer raise (the NotImplementedError aborts the whole summary); a drops
mapping whose keys are all recognised, each paired with its own category
queryset as the resolver yields them, never raises. -/
theorem C8_summary_closed_keys (drops : List (String × DropQS)) (total : Nat) :
    ((∃ p ∈ drops, p.1 ∉ recognizedDropTypes) →
      ∃ e, get_report_summary drops total = .error e)
    ∧ ((∀ p ∈ drops, wellFormedPair p) →
      ∃ s, get_report_summary drops total = .ok s) :=
  ⟨get_report_summary_error_of_unrecognized drops total,
   get_report_summary_ok_of_wellFormed drops total⟩

theorem C8_summary_closed_keys_witness :
    get_report_summary [("artifacts", DropQS.items [])] 0
      = .error "No summary table generation for artifacts"
    ∧ get_report_summary [(itemsRelatedName, DropQS.items [])] 0
      = .ok ⟨[], []⟩ := by
  obtain ⟨e, he⟩ := (C8_summary_closed_keys [("artifacts", DropQS.items [])]
    0).1 ⟨("artifacts", DropQS.items []), by simp, by decide⟩
  obtain ⟨s, hs⟩ := (C8_summary_closed_keys
    [(itemsRelatedName, DropQS.items [])] 0).2 (by
      intro p hp
      rw [List.mem_singleton] at hp
      subst hp
      exact rfl)
  exact ⟨by decide, by decide⟩

theorem flatMap_nil_of_all_nil {β : Type} (l : List (List β))
    (h : ∀ w ∈ l, w = []) : l.flatMap id = [] := by
  induction l with
  | nil => rfl
  | cons w t ih =>
      rw [List.flatMap_cons, h w (List.mem_cons_self w t),
        ih (fun x hx => h x (List.mem_cons_of_mem _ hx))]
      rfl

/-- C3: a reporting target whose selected window is empty (for rift levels:
whose union of per-grade windows is empty) persists no report; a report is
persisted exactly when the window is non-empty. -/
theorem C3_empty_window_skipped
    (src : DropSources) (gameItems : List GameItem)
    (monsterCatalog : List MonsterCatalogRow) (logs : List LogRecord)
    (now : Int) (grade_choices : List (Nat × String)) :
    (recordsToReport (logs.filter (fun r => r.success)) now REPORT_TIMESPAN
        MINIMUM_COUNT = [] →
      generate_dungeon_log_report src logs now = none)
    ∧ (recordsToReport (logs.filter (fun r => r.success)) now REPORT_TIMESPAN
        MINIMUM_COUNT ≠ [] →
      (generate_dungeon_log_report src logs now).isSome = true)
    ∧ ((∀ gc ∈ grade_choices,
        recordsToReport (logs.filter (fun r => decide (r.grade = gc.1))) now
          REPORT_TIMESPAN MINIMUM_COUNT = []) →
      generate_rift_dungeon_report gameItems monsterCatalog src logs now
        grade_choices = none)
    ∧ ((∃ gc ∈ grade_choices,
        recordsToReport (logs.filter (fun r => decide (r.grade = gc.1))) now
          REPORT_TIMESPAN MINIMUM_COUNT ≠ []) →
      (generate_rift_dungeon_report gameItems monsterCatalog src logs now
        grade_choices).isSome = true) := by
  refine ⟨?_, ?_, ?_, ?_⟩
  · intro h
    unfold generate_dungeon_log_report
    dsimp only
    rw [h]
    rfl
  · intro h
    unfold generate_dungeon_log_report
    dsimp only
    rw [if_pos (List.length_pos.mpr h)]
    rfl
  · intro h
    unfold generate_rift_dungeon_report
    dsimp only
    have hflat : ((grade_choices.map (fun gc =>
        recordsToReport (logs.filter (fun r => decide (r.grade = gc.1))) now
          REPORT_TIMESPAN MINIMUM_COUNT)).flatMap id) = [] := by
      apply flatMap_nil_of_all_nil
      intro w hw
      rcases List.mem_map.mp hw with ⟨gc, hgc, rfl⟩
      exact h gc hgc
    rw [hflat]
    rfl
  · intro hex
    obtain ⟨gc, hgc, hne⟩ := hex
    obtain ⟨x, hx⟩ := List.exists_mem_of_ne_nil _ hne
    unfold generate_rift_dungeon_report
    dsimp only
    have hxflat : x ∈ (grade_choices.map (fun gc =>
        recordsToReport (logs.filter (fun r => decide (r.grade = gc.1))) now
          REPORT_TIMESPAN MINIMUM_COUNT)).flatMap id := by
      apply List.mem_flatMap.mpr
      refine ⟨recordsToReport (logs.filter (fun r => decide (r.grade = gc.1)))
        now REPORT_TIMESPAN MINIMUM_COUNT, ?_, hx⟩
      exact List.mem_map.mpr ⟨gc, hgc, rfl⟩
    have hmem : x ∈ sortByTimestampDesc ((grade_choices.map (fun gc =>
        recordsToReport (logs.filter (fun r => decide (r.grade = gc.1))) now
          REPORT_TIMESPAN MINIMUM_COUNT)).flatMap id) :=
      (mem_sortLe _ x _).mpr hxflat
    rw [if_pos (List.length_pos.mpr (List.ne_nil_of_mem hmem))]
    rfl

theorem C3_empty_window_skipped_witness :
    generate_dungeon_log_report exSrcEmpty [exLogFail] 100 = none
    ∧ (generate_dungeon_log_report exSrcItems [exLog1] 100).isSome = true
    ∧ generate_rift_dungeon_report exGameItems [] exSrcEmpty [] 100
        [(1, "A")] = none
    ∧ (generate_rift_dungeon_report exGameItems [] exSrcItems [exLog1] 100
        [(1, "A")]).isSome = true := by
  refine ⟨?_, ?_, ?_, ?_⟩
  · exact (C3_empty_window_skipped exSrcEmpty exGameItems [] [exLogFail] 100
      []).1 (by decide)
  · exact (C3_empty_window_skipped exSrcItems exGameItems [] [exLog1] 100
      []).2.1 (by decide)
  · exact (C3_empty_window_skipped exSrcEmpty exGameItems [] [] 100
      [(1, "A")]).2.2.1 (by
        intro gc hgc
        rw [List.mem_singleton] at hgc
        subst hgc
        decide)
  · exact (C3_empty_window_skipped exSrcItems exGameItems [] [exLog1] 100
      [(1, "A")]).2.2.2 ⟨(1, "A"), by decide, by decide⟩

theorem length_flatMap_eq_sum {α β : Type} (f : α → List β) (l : List α) :
    (l.flatMap f).length = (l.map (fun x => (f x).length)).sum := by
  induction l with
  | nil => rfl
  | cons a t ih => simp [List.flatMap_cons, ih]

/-- C6: the substat section's total population size equals the sum over all
runes of that rune's substat list length (each of the up-to-4 entries counted
independently), not the rune count. -/
theorem C6_substat_population (qs : List RuneDrop) (total : Nat)
    (rep : RuneReport) (h : get_rune_report qs total = some rep) :
    rep.substats.total = (qs.map (fun x => x.substats.length)).sum := by
  unfold get_rune_report at h
  by_cases hq : qs.length = 0
  · rw [if_pos hq] at h
    cases h
  · rw [if_neg hq] at h
    dsimp only at h
    injection h with h2
    subst h2
    exact length_flatMap_eq_sum (fun r => r.substats) qs

theorem C6_substat_population_witness :
    (get_rune_report c6runes 1).map (fun rep => rep.substats.total)
      = some ((c6runes.map (fun x => x.substats.length)).sum) := by
  cases hx : get_rune_report c6runes 1 with
  | none => exact absurd hx (by decide)
  | some rep => simp [C6_substat_population c6runes 1 rep hx]

theorem headD_mem {α : Type} (l : List α) (d : α) (h : l ≠ []) :
    l.headD d ∈ l := by
  cases l with
  | nil => exact absurd rfl h
  | cons a t => simp [List.headD]

theorem drop_chance_bounds (c total : Nat) (htot : 0 < total) :
    (0 : ℚ) ≤ (c : ℚ) / (total : ℚ) * 100
    ∧ (c ≤ total → (c : ℚ) / (total : ℚ) * 100 ≤ 100) := by
  constructor
  · positivity
  · intro hc
    have h1 : (c : ℚ) ≤ (total : ℚ) := by exact_mod_cast hc
    have h2 : (0 : ℚ) < (total : ℚ) := by exact_mod_cast htot
    have h3 : (c : ℚ) / (total : ℚ) ≤ 1 := (div_le_one h2).mpr h1
    calc (c : ℚ) / (total : ℚ) * 100 ≤ 1 * 100 :=
          mul_le_mul_of_nonneg_right h3 (by norm_num)
      _ = 100 := by norm_num

/-- C4 (amended): for the item aggregator, the summary composer's item and
monster tables, and the monster aggregator's star breakdown, over a window
with positive total_log_count, every drop_chance equals exactly
(matching record count / total_log_count) · 100; it is always nonnegative,
and it is at most 100 whenever the entity's matching record count does not
exceed total_log_count — which a run yielding several matching drop records
can violate, as the counterexample shows. -/
theorem C4_drop_chance (total : Nat) (htot : 0 < total) :
    (∀ (qs : List ItemDrop) (rows : List ItemReportRow),
      get_item_report qs total = some rows → ∀ row ∈ rows,
        row.drop_chance = (row.count : ℚ) / (total : ℚ) * 100
        ∧ (0 : ℚ) ≤ row.drop_chance
        ∧ (row.count ≤ total → row.drop_chance ≤ 100))
    ∧ (∀ qs : List ItemDrop, ∀ row ∈ itemTableData qs total,
        row.drop_chance = (row.count : ℚ) / (total : ℚ) * 100
        ∧ (0 : ℚ) ≤ row.drop_chance
        ∧ (row.count ≤ total → row.drop_chance ≤ 100))
    ∧ (∀ qs : List MonsterDrop, ∀ row ∈ monsterTableData qs total,
        row.drop_chance = (row.count : ℚ) / (total : ℚ) * 100
        ∧ (0 : ℚ) ≤ row.drop_chance
        ∧ (row.count ≤ total → row.drop_chance ≤ 100))
    ∧ (∀ (qs : List MonsterDrop) (rep : MonsterReport),
        get_monster_report qs total = some rep →
        ∀ row ∈ rep.nat_stars.data,
          row.drop_chance = (row.count : ℚ) / (total : ℚ) * 100
          ∧ (0 : ℚ) ≤ row.drop_chance
          ∧ (row.count ≤ total → row.drop_chance ≤ 100)) := by
  refine ⟨?_, ?_, ?_, ?_⟩
  · intro qs rows h row hrow
    unfold get_item_report at h
    by_cases hq : qs.length = 0
    · rw [if_pos hq] at h
      cases h
    · rw [if_neg hq] at h
      injection h with h2
      subst h2
      rw [mem_sortLe] at hrow
      rcases List.mem_map.mp hrow with ⟨g, _, rfl⟩
      obtain ⟨hb1, hb2⟩ := drop_chance_bounds g.2.length total htot
      exact ⟨rfl, hb1, hb2⟩
  · intro qs row hrow
    unfold itemTableData at hrow
    rcases List.mem_map.mp hrow with ⟨p, hp, rfl⟩
    rw [mem_sortLe] at hp
    rcases List.mem_map.mp (List.mem_of_mem_filter hp) with ⟨g, _, rfl⟩
    obtain ⟨hb1, hb2⟩ := drop_chance_bounds g.2.length total htot
    exact ⟨rfl, hb1, hb2⟩
  · intro qs row hrow
    unfold monsterTableData at hrow
    rcases List.mem_map.mp hrow with ⟨g, _, rfl⟩
    obtain ⟨hb1, hb2⟩ := drop_chance_bounds g.2.length total htot
    exact ⟨rfl, hb1, hb2⟩
  · intro qs rep h row hrow
    unfold get_monster_report at h
    by_cases hq : qs.length = 0
    · rw [if_pos hq] at h
      cases h
    · rw [if_neg hq] at h
      injection h with h2
      subst h2
      rcases List.mem_map.mp hrow with ⟨g, _, rfl⟩
      obtain ⟨hb1, hb2⟩ := drop_chance_bounds g.2.length total htot
      exact ⟨rfl, hb1, hb2⟩

theorem C4_drop_chance_witness :
    (0 : ℚ) ≤ ((itemTableData [⟨exLog1, 7, "Crystal", "icon_c", 0, 1⟩]
      1).headD default).drop_chance
    ∧ ((itemTableData [⟨exLog1, 7, "Crystal", "icon_c", 0, 1⟩]
      1).headD default).drop_chance ≤ 100
    ∧ ((itemTableData [⟨exLog1, 7, "Crystal", "icon_c", 0, 1⟩]
      1).headD default).drop_chance = 100 := by
  obtain ⟨h1, h2, h3⟩ := (C4_drop_chance 1 (by decide)).2.1
    [⟨exLog1, 7, "Crystal", "icon_c", 0, 1⟩]
    ((itemTableData [⟨exLog1, 7, "Crystal", "icon_c", 0, 1⟩] 1).headD default)
    (headD_mem _ _ (by decide))
  refine ⟨h2, h3 (by decide), ?_⟩
  norm_num [itemTableData, groupBy, sortLe, insertLe, avgQ, exLog1]

/-- C4 counterexample: a window of one log record whose run awarded two drop
records of the same item makes the summary composer's item table report
drop_chance 200, outside [0, 100] — the unconditional range claim is
false. -/
theorem C4_drop_chance_counterexample :
    ((itemTableData c4qs 1).map (fun r => r.drop_chance)) = [200]
    ∧ ¬ ((200 : ℚ) ≤ 100) := by
  constructor
  · norm_num [itemTableData, groupBy, sortLe, insertLe, avgQ, c4qs, exLog1]
  · norm_num

theorem gsItemEntry_fields (itemsQs : List ItemDrop)
    (grade_qs : List LogRecord) (total : Nat) (gi : GameItem) :
    (gsItemEntry itemsQs grade_qs total gi).drop_chance
      = ((gsItemEntry itemsQs grade_qs total gi).count : ℚ) / (total : ℚ) * 100
    ∧ ((gsItemEntry itemsQs grade_qs total gi).avg_per_run = none
       ∨ ∃ s : ℚ, (gsItemEntry itemsQs grade_qs total gi).avg_per_run
           = some (s / (total : ℚ))) := by
  refine ⟨rfl, ?_⟩
  unfold gsItemEntry
  dsimp only
  split
  · exact Or.inl rfl
  · exact Or.inr ⟨_, rfl⟩

/-- C10: in the cross-grade summary every per-entity entry's drop_chance is
the entry's count divided by the record count across all grades combined
(times 100), and item avg_per_run likewise divides by the all-grades count —
never by the individual grade's record count. -/
theorem C10_cross_grade_denominator (gameItems : List GameItem)
    (monsterCatalog : List MonsterCatalogRow) (src : DropSources)
    (qs : List LogRecord) (grade_choices : List (Nat × String)) :
    ∀ gs ∈ grade_summary_report gameItems monsterCatalog src qs grade_choices,
      ∀ e ∈ gs.drops,
        e.drop_chance = (e.count : ℚ) / (qs.length : ℚ) * 100
        ∧ (e.avg_per_run = none
           ∨ ∃ s : ℚ, e.avg_per_run = some (s / (qs.length : ℚ))) := by
  intro gs hgs e he
  unfold grade_summary_report at hgs
  dsimp only at hgs
  rcases List.mem_map.mp hgs with ⟨gc, hgc, rfl⟩
  dsimp only at he
  rcases List.mem_append.mp he with hitem | hmon
  · rcases List.mem_map.mp hitem with ⟨gi, hgi, rfl⟩
    exact gsItemEntry_fields _ _ qs.length gi
  · rcases List.mem_map.mp hmon with ⟨m, hm, rfl⟩
    exact ⟨rfl, Or.inl rfl⟩

theorem foldl_min_le_init {α : Type} [LinearOrder α] (t : List α) (a : α) :
    t.foldl min a ≤ a := by
  induction t generalizing a with
  | nil => exact le_refl a
  | cons b t2 ih => exact le_trans (ih (min a b)) (min_le_left a b)

theorem foldl_min_le_mem {α : Type} [LinearOrder α] (t : List α) (a x : α)
    (hx : x ∈ t) : t.foldl min a ≤ x := by
  induction t generalizing a with
  | nil => cases hx
  | cons b t2 ih =>
      rcases List.mem_cons.mp hx with hxb | hxt
      · subst hxb
        exact le_trans (foldl_min_le_init t2 (min a x)) (min_le_right a x)
      · exact ih _ hxt

theorem min?_le_mem {α : Type} [LinearOrder α] (l : List α) (m x : α)
    (hm : l.min? = some m) (hx : x ∈ l) : m ≤ x := by
  cases l with
  | nil => cases hx
  | cons a t =>
      have hm2 : m = t.foldl min a := by
        have : (a :: t).min? = some (t.foldl min a) := rfl
        rw [this] at hm
        exact (Option.some.inj hm).symm
      subst hm2
      rcases List.mem_cons.mp hx with hxa | hxt
      · subst hxa
        exact foldl_min_le_init t x
      · exact foldl_min_le_mem t a x hxt

theorem foldl_max_mem_or {α : Type} [LinearOrder α] (t : List α) (a : α) :
    t.foldl max a = a ∨ t.foldl max a ∈ t := by
  induction t generalizing a with
  | nil => exact Or.inl rfl
  | cons b t2 ih =>
      rcases ih (max a b) with heq | hmem
      · rcases max_choice a b with hab | hab
        · exact Or.inl (by rw [List.foldl_cons, heq, hab])
        · refine Or.inr ?_
          rw [List.foldl_cons, heq, hab]
          exact List.mem_cons_self b t2
      · exact Or.inr (List.mem_cons_of_mem b hmem)

theorem max?_mem_self {α : Type} [LinearOrder α] (l : List α) (b : α)
    (h : l.max? = some b) : b ∈ l := by
  cases l with
  | nil => cases h
  | cons a t =>
      have hb : b = t.foldl max a := by
        have : (a :: t).max? = some (t.foldl max a) := rfl
        rw [this] at h
        exact (Option.some.inj h).symm
      subst hb
      rcases foldl_max_mem_or t a with heq | hmem
      · rw [heq]
        exact List.mem_cons_self a t
      · exact List.mem_cons_of_mem a hmem

theorem binFor_spec {α : Type} [LinearOrder α] (bins : List α) (v b0 : α)
    (hb0 : b0 ∈ bins) (hle : b0 ≤ v) :
    ∃ b, binFor bins v = some b ∧ b ∈ bins ∧ b ≤ v := by
  have hmem : b0 ∈ bins.filter (fun b => decide (b ≤ v)) :=
    List.mem_filter.mpr ⟨hb0, decide_eq_true hle⟩
  unfold binFor
  cases hmax : (bins.filter (fun b => decide (b ≤ v))).max? with
  | none =>
      cases hf : bins.filter (fun b => decide (b ≤ v)) with
      | nil =>
          rw [hf] at hmem
          cases hmem
      | cons a t =>
          rw [hf] at hmax
          have : (a :: t).max? = some (t.foldl max a) := rfl
          rw [this] at hmax
          cases hmax
  | some b =>
      have hbmem := max?_mem_self _ b hmax
      rcases List.mem_filter.mp hbmem with ⟨h1, h2⟩
      exact ⟨b, rfl, h1, of_decide_eq_true h2⟩

theorem sum_map_add {κ : Type} (l : List κ) (f g : κ → Nat) :
    (l.map (fun k => f k + g k)).sum = (l.map f).sum + (l.map g).sum := by
  induction l with
  | nil => rfl
  | cons a t ih =>
      simp only [List.map_cons, List.sum_cons, ih]
      omega

theorem sum_map_indicator {κ : Type} [DecidableEq κ] (keys : List κ)
    (hnd : keys.Nodup) (c : κ) (hc : c ∈ keys) :
    (keys.map (fun k => if c = k then 1 else 0)).sum = 1 := by
  induction keys with
  | nil => cases hc
  | cons k t ih =>
      rcases List.nodup_cons.mp hnd with ⟨hk, hndt⟩
      rcases List.mem_cons.mp hc with hck | hct
      · subst hck
        simp only [List.map_cons, List.sum_cons, if_pos rfl]
        have hz : (t.map (fun k2 => if c = k2 then 1 else 0)).sum = 0 := by
          apply List.sum_eq_zero
          intro x hx
          rcases List.mem_map.mp hx with ⟨k2, hk2, rfl⟩
          rw [if_neg]
          intro hck2
          exact hk (hck2 ▸ hk2)
        rw [hz]
        simp
      · have hck : ¬ c = k := by
          intro hck
          exact hk (hck ▸ hct)
        simp only [List.map_cons, List.sum_cons, if_neg hck]
        rw [ih hndt hct]

theorem countP_key_partition {α κ : Type} [DecidableEq κ] (f : α → κ)
    (keys : List κ) (hnd : keys.Nodup) (l : List α)
    (hcov : ∀ x ∈ l, f x ∈ keys) :
    (keys.map (fun k => l.countP (fun x => decide (f x = k)))).sum
      = l.length := by
  induction l with
  | nil => simp
  | cons a t ih =>
      have hcov2 : ∀ x ∈ t, f x ∈ keys :=
        fun x hx => hcov x (List.mem_cons_of_mem a hx)
      have hfa : f a ∈ keys := hcov a (List.mem_cons_self a t)
      have hsplit : (keys.map (fun k =>
          (a :: t).countP (fun x => decide (f x = k)))).sum
          = (keys.map (fun k => t.countP (fun x => decide (f x = k)))).sum
            + (keys.map (fun k => if f a = k then 1 else 0)).sum := by
        rw [← sum_map_add]
        apply congrArg List.sum
        apply List.map_congr_left
        intro k _
        rw [List.countP_cons]
        by_cases hak : f a = k
        · rw [if_pos (decide_eq_true hak), if_pos hak]
        · rw [if_neg (by simpa using hak), if_neg hak]
      rw [hsplit, ih hcov2, sum_map_indicator keys hnd (f a) hfa]
      simp

theorem head?_mem_self {α : Type} (l : List α) (a : α)
    (h : l.head? = some a) : a ∈ l := by
  cases l with
  | nil => cases h
  | cons x t =>
      have hx : x = a := Option.some.inj h
      subst hx
      exact List.mem_cons_self x t

theorem min?_isSome_of_ne_nil {α : Type} [LinearOrder α] (l : List α)
    (h : l ≠ []) : ∃ m, l.min? = some m := by
  cases l with
  | nil => exact absurd rfl h
  | cons a t => exact ⟨t.foldl min a, rfl⟩

/-- Summing the per-slice counts of a predicate over the distinct observed
slices recovers the total count of the predicate. -/
theorem sum_countP_slices {α : Type} (rows : List (α × Nat))
    (P : α × Nat → Bool) :
    (((rows.map (fun r => r.2)).dedup).map (fun q =>
        rows.countP (fun r => P r && decide (r.2 = q)))).sum
      = rows.countP P := by
  have h1 : ∀ q : Nat, rows.countP (fun r => P r && decide (r.2 = q))
      = (rows.filter P).countP (fun r => decide (r.2 = q)) := by
    intro q
    rw [List.countP_filter]
    apply List.countP_congr
    intro r _
    simp only [Bool.and_eq_true]
    exact and_comm
  calc (((rows.map (fun r => r.2)).dedup).map (fun q =>
        rows.countP (fun r => P r && decide (r.2 = q)))).sum
      = (((rows.map (fun r => r.2)).dedup).map (fun q =>
          (rows.filter P).countP (fun r => decide (r.2 = q)))).sum := by
        apply congrArg List.sum
        apply List.map_congr_left
        intro q _
        exact h1 q
    _ = (rows.filter P).length :=
        countP_key_partition (fun r => r.2)
          ((rows.map (fun r => r.2)).dedup) (List.nodup_dedup _)
          (rows.filter P)
          (fun x hx => List.mem_dedup.mpr
            (List.mem_map_of_mem _ (List.mem_of_mem_filter hx)))
    _ = rows.countP P := (List.countP_eq_length_filter P rows).symm

/-- Every row that some bin covers is counted in exactly one cell of the
histogram: the sum of all cells is the row count. -/
theorem cellSum_histogram_eq_length {α : Type} [LinearOrder α]
    [DecidableEq α] (rows : List (α × Nat)) (bins : List α)
    (hnd : bins.Nodup)
    (hcov : ∀ r ∈ rows, ∃ b ∈ bins, binFor bins r.1 = some b) :
    cellSum (histogram rows bins) = rows.length := by
  unfold cellSum histogram
  dsimp only
  rw [List.map_map]
  have hinner : ∀ b : α,
      ((fun e : α × List (Nat × Nat) => (e.2.map (fun c => c.2)).sum) ∘
        (fun b => (b, ((rows.map (fun r => r.2)).dedup).map (fun q =>
          (q, rows.countP (fun r =>
            decide (binFor bins r.1 = some b ∧ r.2 = q))))))) b
      = rows.countP (fun r => decide (binFor bins r.1 = some b)) := by
    intro b
    dsimp only [Function.comp]
    rw [List.map_map]
    have hcnt : ∀ q : Nat, rows.countP (fun r =>
        decide (binFor bins r.1 = some b ∧ r.2 = q))
        = rows.countP (fun r =>
            decide (binFor bins r.1 = some b) && decide (r.2 = q)) := by
      intro q
      apply List.countP_congr
      intro r _
      simp only [Bool.and_eq_true, decide_eq_true_eq]
    calc (((rows.map (fun r => r.2)).dedup).map
          ((fun c : Nat × Nat => c.2) ∘ (fun q =>
            (q, rows.countP (fun r =>
              decide (binFor bins r.1 = some b ∧ r.2 = q)))))).sum
        = (((rows.map (fun r => r.2)).dedup).map (fun q =>
            rows.countP (fun r =>
              decide (binFor bins r.1 = some b) && decide (r.2 = q)))).sum := by
          apply congrArg List.sum
          apply List.map_congr_left
          intro q _
          exact hcnt q
      _ = rows.countP (fun r => decide (binFor bins r.1 = some b)) :=
          sum_countP_slices rows
            (fun r => decide (binFor bins r.1 = some b))
  calc (bins.map ((fun e : α × List (Nat × Nat) =>
        (e.2.map (fun c => c.2)).sum) ∘
        (fun b => (b, ((rows.map (fun r => r.2)).dedup).map (fun q =>
          (q, rows.countP (fun r =>
            decide (binFor bins r.1 = some b ∧ r.2 = q)))))))).sum
      = (bins.map (fun b =>
          rows.countP (fun r => decide (binFor bins r.1 = some b)))).sum := by
        apply congrArg List.sum
        apply List.map_congr_left
        intro b _
        exact hinner b
    _ = ((bins.map some).map (fun ob =>
          rows.countP (fun r => decide (binFor bins r.1 = ob)))).sum := by
        rw [List.map_map]
        exact rfl
    _ = rows.length := by
        apply countP_key_partition (fun r => binFor bins r.1)
          (bins.map some) (hnd.map (fun _ _ h => Option.some.inj h)) rows
        intro x hx
        obtain ⟨b, hb, hbin⟩ := hcov x hx
        rw [hbin]
        exact List.mem_map_of_mem some hb

theorem floor_to_nearest_le (x : Int) : floor_to_nearest x 1000 ≤ x := by
  unfold floor_to_nearest
  omega

theorem le_ceil_to_nearest (x : Int) : x ≤ ceil_to_nearest x 1000 := by
  unfold ceil_to_nearest
  omega

theorem dvd_floor_to_nearest (x : Int) :
    (1000 : Int) ∣ floor_to_nearest x 1000 :=
  Dvd.intro _ rfl

theorem dvd_ceil_to_nearest (x : Int) :
    (1000 : Int) ∣ ceil_to_nearest x 1000 :=
  Dvd.intro _ rfl

/-- The derived bin list of the sell value histogram, when the rounded
bounds differ by 1000·m: its length, head, membership, and distinctness. -/
theorem pyRange500_spec (lo hi : Int) (m : Nat) (hm : 0 < m)
    (hdiff : hi - lo = 1000 * m) :
    (pyRange500 lo hi).length = 2 * m
    ∧ (pyRange500 lo hi).head? = some lo
    ∧ (∀ b, b ∈ pyRange500 lo hi ↔ ∃ i : Nat, i < 2 * m ∧ b = lo + 500 * i)
    ∧ (pyRange500 lo hi).Nodup := by
  have htn : (hi - lo).toNat = 1000 * m := by
    rw [hdiff]
    omega
  have hn : ((hi - lo).toNat + 499) / 500 = 2 * m := by
    rw [htn]
    omega
  unfold pyRange500
  rw [hn]
  refine ⟨by rw [List.length_map, List.length_range], ?_, ?_, ?_⟩
  · rw [List.head?_map]
    cases hm2 : 2 * m with
    | zero => omega
    | succ k =>
        rw [List.range_succ_eq_map]
        simp
  · intro b
    constructor
    · intro hb
      rcases List.mem_map.mp hb with ⟨i, hi2, rfl⟩
      exact ⟨i, List.mem_range.mp hi2, rfl⟩
    · rintro ⟨i, hi2, rfl⟩
      exact List.mem_map_of_mem _ (List.mem_range.mpr hi2)
  · apply List.Nodup.map
    · intro i j hij
      have hij2 : lo + 500 * (i : Int) = lo + 500 * (j : Int) := hij
      omega
    · exact List.nodup_range _

/-- C5 (amended): whenever the rounded value bounds differ (the
non-degenerate case), the sell value histogram of a non-empty rune drop set
has bucket width 500; its buckets are exactly the derived bin list, whose
lower bounds are multiples of 500 starting at floor(min/1000)·1000 and
ending at ceil(max/1000)·1000 − 500, all within [floor, ceil); and every
rune falls in exactly one (bucket, quality) cell, so the cell counts sum to
the rune count.  When every sell value equals one common multiple of 1000
the bin list is empty and no rune is bucketed, as the counterexample
shows. -/
theorem C5_value_histogram (qs : List RuneDrop) (total : Nat)
    (rep : RuneReport) (lo hi : Int)
    (hlo : lo = floor_to_nearest (((qs.map (fun r => r.value)).min?).getD 0)
      1000)
    (hhi : hi = ceil_to_nearest (((qs.map (fun r => r.value)).max?).getD 0)
      1000)
    (h : get_rune_report qs total = some rep)
    (hlt : lo < hi) :
    rep.value.width = 500
    ∧ (rep.value.data.map (fun e => e.1)) = pyRange500 lo hi
    ∧ (pyRange500 lo hi).head? = some lo
    ∧ (hi - 500) ∈ pyRange500 lo hi
    ∧ (∀ b ∈ pyRange500 lo hi, (500 : Int) ∣ b ∧ lo ≤ b ∧ b < hi)
    ∧ cellSum rep.value.data = qs.length := by
  unfold get_rune_report at h
  by_cases hq : qs.length = 0
  · rw [if_pos hq] at h
    cases h
  rw [if_neg hq] at h
  dsimp only at h
  injection h with h2
  subst h2
  subst hlo
  subst hhi
  set lo := floor_to_nearest (((qs.map (fun r => r.value)).min?).getD 0) 1000
    with hlodef
  set hi := ceil_to_nearest (((qs.map (fun r => r.value)).max?).getD 0) 1000
    with hhidef
  obtain ⟨a, ha⟩ : (1000 : Int) ∣ lo := dvd_floor_to_nearest _
  obtain ⟨c, hc⟩ : (1000 : Int) ∣ hi := dvd_ceil_to_nearest _
  have hdiff : hi - lo = 1000 * ((c - a).toNat : Int) := by omega
  have hmpos : 0 < (c - a).toNat := by omega
  obtain ⟨hlen, hhead, hmem, hnd⟩ :=
    pyRange500_spec lo hi (c - a).toNat hmpos hdiff
  have hqne : qs ≠ [] := fun hcon => hq (by rw [hcon]; rfl)
  refine ⟨rfl, ?_, hhead, ?_, ?_, ?_⟩
  · unfold histogram
    dsimp only
    rw [List.map_map]
    exact (List.map_congr_left (fun b _ => rfl)).trans
      (List.map_id' (pyRange500 lo hi))
  · exact (hmem _).mpr ⟨2 * (c - a).toNat - 1, by omega, by omega⟩
  · intro b hb
    obtain ⟨i, hi2, rfl⟩ := (hmem b).mp hb
    refine ⟨⟨2 * a + i, by omega⟩, by omega, by omega⟩
  · show cellSum (histogram (qs.map (fun r => (r.value, r.quality)))
      (pyRange500 lo hi)) = qs.length
    rw [cellSum_histogram_eq_length (qs.map (fun r => (r.value, r.quality)))
      (pyRange500 lo hi) hnd ?hcov]
    · exact List.length_map _ _
    case hcov =>
      intro r2 hr2
      rcases List.mem_map.mp hr2 with ⟨r, hrqs, rfl⟩
      obtain ⟨mv, hmv⟩ := min?_isSome_of_ne_nil (qs.map (fun x => x.value))
        (fun hcon => hqne (List.map_eq_nil_iff.mp hcon))
      have hlole : lo ≤ r.value := by
        have h1 : lo ≤ mv := by
          rw [hlodef, hmv]
          exact floor_to_nearest_le mv
        have h2 : mv ≤ r.value :=
          min?_le_mem _ mv r.value hmv (List.mem_map_of_mem _ hrqs)
        omega
      obtain ⟨b, hbin, hbmem, _⟩ := binFor_spec (pyRange500 lo hi) r.value lo
        (head?_mem_self _ lo hhead) hlole
      exact ⟨b, hbmem, hbin⟩

theorem C5_value_histogram_witness :
    ((get_rune_report c5runes 1).map (fun rep => cellSum rep.value.data))
      = some c5runes.length
    ∧ ((get_rune_report c5runes 1).map (fun rep => rep.value.width))
      = some 500
    ∧ (pyRange500 0 2000).head? = some 0
    ∧ ((2000 : Int) - 500) ∈ pyRange500 0 2000 := by
  cases hx : get_rune_report c5runes 1 with
  | none => exact absurd hx (by decide)
  | some rep =>
      obtain ⟨hw, hbins, hhead, hlast, hall, hsum⟩ :=
        C5_value_histogram c5runes 1 rep 0 2000 (by decide) (by decide) hx
          (by decide)
      refine ⟨?_, ?_, hhead, hlast⟩
      · simp only [Option.map_some']
        rw [hsum]
      · simp only [Option.map_some']
        rw [hw]

/-- C5 counterexample: a single rune whose sell value is 1000 gives
floor(min/1000)·1000 = ceil(max/1000)·1000 = 1000, an empty bin list, and a
value histogram with no cells at all — so the rune appears in no
(bucket, quality) cell and the claim that every rune falls in exactly one
cell is false. -/
theorem C5_value_histogram_counterexample :
    ((get_rune_report [c5rune] 1).map (fun rep => cellSum rep.value.data))
      = some 0
    ∧ [c5rune].length = 1 := by
  constructor
  · decide
  · rfl

theorem insertLe_ts_sorted (x : LogRecord) (l : List LogRecord)
    (h : sortedDesc l) :
    sortedDesc (insertLe (fun a b => decide (b.timestamp ≤ a.timestamp)) x l)
    := by
  induction l with
  | nil =>
      unfold insertLe sortedDesc
      simp
  | cons y ys ih =>
      rcases List.pairwise_cons.mp h with ⟨hy, hys⟩
      unfold insertLe
      by_cases hle : y.timestamp ≤ x.timestamp
      · rw [if_pos (decide_eq_true hle)]
        apply List.pairwise_cons.mpr
        refine ⟨?_, h⟩
        intro z hz
        rcases List.mem_cons.mp hz with hzy | hzt
        · subst hzy
          exact hle
        · exact le_trans (hy z hzt) hle
      · rw [if_neg (by simpa using hle)]
        apply List.pairwise_cons.mpr
        constructor
        · intro z hz
          rcases (mem_insertLe _ x z ys).mp hz with hzx | hzt
          · subst hzx
            exact le_of_lt (not_le.mp hle)
          · exact hy z hzt
        · exact ih hys

theorem sortByTimestampDesc_sorted (l : List LogRecord) :
    sortedDesc (sortByTimestampDesc l) := by
  induction l with
  | nil =>
      unfold sortByTimestampDesc sortLe sortedDesc
      simp
  | cons x xs ih => exact insertLe_ts_sorted x _ ih

theorem sortedDesc_getLastD_le_headD (l : List LogRecord) (h : sortedDesc l)
    (hne : l ≠ []) :
    (l.getLastD default).timestamp ≤ (l.headD default).timestamp := by
  cases l with
  | nil => exact absurd rfl hne
  | cons r rs =>
      have h1 : (r :: rs).getLast? = some ((r :: rs).getLast
          (List.cons_ne_nil r rs)) :=
        List.getLast?_eq_getLast_of_ne_nil (List.cons_ne_nil r rs)
      have h2 := sortedDesc_getLast?_min (r :: rs) _ h h1 r
        (List.mem_cons_self r rs)
      rw [List.getLastD_eq_getLast?, h1]
      exact h2

/-- C9: every persisted report satisfies start_timestamp ≤ end_timestamp ≤
now (start is the oldest windowed record's timestamp and end the newest's,
given the most-recent-first stream with no future timestamps), and its
log_count equals the size of the selected window actually aggregated. -/
theorem C9_report_invariants (src : DropSources) (gameItems : List GameItem)
    (monsterCatalog : List MonsterCatalogRow) (logs : List LogRecord)
    (now : Int) (grade_choices : List (Nat × String))
    (hsorted : sortedDesc logs)
    (hnow : ∀ r ∈ logs, r.timestamp ≤ now) :
    (∀ rep, generate_dungeon_log_report src logs now = some rep →
      rep.start_timestamp ≤ rep.end_timestamp
      ∧ rep.end_timestamp ≤ now
      ∧ rep.log_count = (recordsToReport (logs.filter (fun r => r.success))
          now REPORT_TIMESPAN MINIMUM_COUNT).length)
    ∧ (∀ rep, generate_rift_dungeon_report gameItems monsterCatalog src logs
        now grade_choices = some rep →
      rep.start_timestamp ≤ rep.end_timestamp
      ∧ rep.end_timestamp ≤ now
      ∧ rep.log_count = (sortByTimestampDesc ((grade_choices.map (fun gc =>
          recordsToReport (logs.filter (fun r => decide (r.grade = gc.1))) now
            REPORT_TIMESPAN MINIMUM_COUNT)).flatMap id)).length) := by
  constructor
  · intro rep h
    unfold generate_dungeon_log_report at h
    dsimp only at h
    split at h
    case isFalse => cases h
    case isTrue hpos =>
        injection h with h2
        subst h2
        have hsub : sortedDesc (logs.filter (fun r => r.success)) :=
          List.Pairwise.sublist (List.filter_sublist logs) hsorted
        have hrecsorted := recordsToReport_sortedDesc
          (logs.filter (fun r => r.success)) now REPORT_TIMESPAN MINIMUM_COUNT
          hsub
        have hne : recordsToReport (logs.filter (fun r => r.success)) now
            REPORT_TIMESPAN MINIMUM_COUNT ≠ [] := by
          intro hcon
          rw [hcon] at hpos
          exact absurd hpos (by decide)
        refine ⟨sortedDesc_getLastD_le_headD _ hrecsorted hne, ?_, rfl⟩
        have hmem := headD_mem _ (default : LogRecord) hne
        have hmem2 := recordsToReport_subset _ now REPORT_TIMESPAN
          MINIMUM_COUNT _ hmem
        exact hnow _ (List.mem_of_mem_filter hmem2)
  · intro rep h
    unfold generate_rift_dungeon_report at h
    dsimp only at h
    split at h
    case isFalse => cases h
    case isTrue hpos =>
        injection h with h2
        subst h2
        have hsorted2 := sortByTimestampDesc_sorted
          ((grade_choices.map (fun gc =>
            recordsToReport (logs.filter (fun r => decide (r.grade = gc.1)))
              now REPORT_TIMESPAN MINIMUM_COUNT)).flatMap id)
        have hne : sortByTimestampDesc ((grade_choices.map (fun gc =>
            recordsToReport (logs.filter (fun r => decide (r.grade = gc.1)))
              now REPORT_TIMESPAN MINIMUM_COUNT)).flatMap id) ≠ [] := by
          intro hcon
          rw [hcon] at hpos
          exact absurd hpos (by decide)
        refine ⟨sortedDesc_getLastD_le_headD _ hsorted2 hne, ?_, rfl⟩
        have hmem := headD_mem _ (default : LogRecord) hne
        have hmem2 := (mem_sortLe _ _ _).mp hmem
        rcases List.mem_flatMap.mp hmem2 with ⟨w, hw, hxw⟩
        rcases List.mem_map.mp hw with ⟨gc, hgc, rfl⟩
        have hmem3 := recordsToReport_subset _ now REPORT_TIMESPAN
          MINIMUM_COUNT _ hxw
        exact hnow _ (List.mem_of_mem_filter hmem3)

theorem C9_report_invariants_witness :
    ((generate_dungeon_log_report exSrcItems [exLog1] 100).map
      (fun rep => decide (rep.start_timestamp ≤ rep.end_timestamp)
        && decide (rep.end_timestamp ≤ 100)
        && decide (rep.log_count = 1))) = some true
    ∧ ((generate_rift_dungeon_report exGameItems [] exSrcItems [exLog1] 100
        [(1, "A")]).map
      (fun rep => decide (rep.start_timestamp ≤ rep.end_timestamp)
        && decide (rep.end_timestamp ≤ 100)
        && decide (rep.log_count = 1))) = some true := by
  constructor
  · cases hx : generate_dungeon_log_report exSrcItems [exLog1] 100 with
    | none => exact absurd hx (by decide)
    | some rep =>
        obtain ⟨h1, h2, h3⟩ := (C9_report_invariants exSrcItems exGameItems []
          [exLog1] 100 [] (by decide) (by decide)).1 rep hx
        have hcount : rep.log_count = 1 := by
          rw [h3]
          decide
        simp [decide_eq_true h1, decide_eq_true h2, hcount]
  · cases hx : generate_rift_dungeon_report exGameItems [] exSrcItems
        [exLog1] 100 [(1, "A")] with
    | none => exact absurd hx (by decide)
    | some rep =>
        obtain ⟨h1, h2, h3⟩ := (C9_report_invariants exSrcItems exGameItems []
          [exLog1] 100 [(1, "A")] (by decide) (by decide)).2 rep hx
        have hcount : rep.log_count = 1 := by
          rw [h3]
          decide
        simp [decide_eq_true h1, decide_eq_true h2, hcount]

theorem length_filter_add_partition {α : Type} (l : List α)
    (p q pr : α → Bool)
    (hsplit : ∀ x ∈ l, pr x = (p x || q x) ∧ ¬(p x = true ∧ q x = true)) :
    (l.filter p).length + (l.filter q).length = (l.filter pr).length := by
  induction l with
  | nil => rfl
  | cons a t ih =>
      obtain ⟨h1, h2⟩ := hsplit a (List.mem_cons_self a t)
      have iht := ih (fun x hx => hsplit x (List.mem_cons_of_mem a hx))
      rw [List.filter_cons, List.filter_cons, List.filter_cons, h1]
      cases hpa : p a <;> cases hqa : q a
      · simp only [Bool.or_self, Bool.false_eq_true, if_false]
        exact iht
      · simp
        omega
      · simp
        omega
      · exact absurd ⟨hpa, hqa⟩ h2

theorem lookupItems_get_drop_querysets (src : DropSources)
    (qs : List LogRecord) :
    lookupItems (get_drop_querysets src qs)
      = src.items.map (fun l => l.filter (fun d => decide (d.log ∈ qs))) := by
  unfold lookupItems get_drop_querysets
  cases src.items with
  | some l => rfl
  | none =>
      cases src.monsters <;> cases src.monster_pieces <;> cases src.runes <;>
        cases src.rune_crafts <;> cases src.secret_dungeons <;> rfl

/-- C7: for a rift level configured with the two grades A and B, when both
grade windows are non-empty the persisted report's payload is exactly the
3-element sequence [grade A entry, grade B entry, summary entry]; and in the
cross-grade summary the per-item counts of the two grades sum to that item's
total count over all windowed drops. -/
theorem C7_rift_two_grades (gameItems : List GameItem)
    (monsterCatalog : List MonsterCatalogRow) (src : DropSources)
    (logs : List LogRecord) (now : Int) (ga gb : Nat)
    (wA wB allR : List LogRecord) (itemsAll : List ItemDrop)
    (hne : ga ≠ gb)
    (hwA : wA = recordsToReport (logs.filter (fun r => decide (r.grade = ga)))
      now REPORT_TIMESPAN MINIMUM_COUNT)
    (hwB : wB = recordsToReport (logs.filter (fun r => decide (r.grade = gb)))
      now REPORT_TIMESPAN MINIMUM_COUNT)
    (hallR : allR = sortByTimestampDesc (wA ++ wB))
    (hitems : itemsAll = (lookupItems (get_drop_querysets src allR)).getD [])
    (hA : wA ≠ []) (hB : wB ≠ []) :
    generate_rift_dungeon_report gameItems monsterCatalog src logs now
        [(ga, "A"), (gb, "B")]
      = some ⟨(allR.getLastD default).timestamp,
          (allR.headD default).timestamp,
          allR.length, (allR.map (fun r => r.wizard_id)).dedup.length,
          [RiftReportEntry.gradeEntry "A" (some (level_drop_report src wA)),
           RiftReportEntry.gradeEntry "B" (some (level_drop_report src wB)),
           RiftReportEntry.summaryEntry "summary"
             (grade_summary_report gameItems monsterCatalog src allR
               [(ga, "A"), (gb, "B")])]⟩
    ∧ (∀ i : Nat,
        (itemsAll.filter (fun d => decide (d.log ∈ allR.filter
            (fun r => decide (r.grade = ga)) ∧ d.item = i))).length
        + (itemsAll.filter (fun d => decide (d.log ∈ allR.filter
            (fun r => decide (r.grade = gb)) ∧ d.item = i))).length
        = (itemsAll.filter (fun d => decide (d.item = i))).length) := by
  have hposA : 0 < wA.length := List.length_pos.mpr hA
  have hposB : 0 < wB.length := List.length_pos.mpr hB
  have hpos : 0 < allR.length := by
    obtain ⟨x, hx⟩ := List.exists_mem_of_ne_nil wA hA
    have hx2 : x ∈ allR := by
      rw [hallR]
      exact (mem_sortLe _ _ _).mpr (List.mem_append_left wB hx)
    exact List.length_pos.mpr (List.ne_nil_of_mem hx2)
  constructor
  · unfold generate_rift_dungeon_report
    dsimp only
    simp only [List.map_cons, List.map_nil, List.zip_cons_cons,
      List.zip_nil_right, List.flatMap_cons, List.flatMap_nil,
      List.append_nil, id_eq]
    rw [← hwA, ← hwB, ← hallR]
    rw [if_pos hpos, if_pos hposA, if_pos hposB]
    rfl
  · intro i
    apply length_filter_add_partition
    intro x hx
    have hlog : x.log ∈ allR := by
      rw [hitems, lookupItems_get_drop_querysets] at hx
      cases hsrc : src.items with
      | none =>
          rw [hsrc] at hx
          cases hx
      | some l =>
          rw [hsrc] at hx
          simp only [Option.map_some', Option.getD_some] at hx
          simpa using (List.mem_filter.mp hx).2
    have hgrade : x.log.grade = ga ∨ x.log.grade = gb := by
      have hmem : x.log ∈ wA ++ wB := by
        rw [hallR] at hlog
        exact (mem_sortLe _ _ _).mp hlog
      rcases List.mem_append.mp hmem with hA2 | hB2
      · left
        have := recordsToReport_subset _ now REPORT_TIMESPAN MINIMUM_COUNT
          x.log (hwA ▸ hA2)
        simpa using (List.mem_filter.mp this).2
      · right
        have := recordsToReport_subset _ now REPORT_TIMESPAN MINIMUM_COUNT
          x.log (hwB ▸ hB2)
        simpa using (List.mem_filter.mp this).2
    constructor
    · by_cases hitem : x.item = i
      · rw [decide_eq_true hitem]
        rcases hgrade with hg | hg
        · have hp : decide (x.log ∈ allR.filter
              (fun r => decide (r.grade = ga)) ∧ x.item = i) = true :=
            decide_eq_true ⟨List.mem_filter.mpr ⟨hlog, decide_eq_true hg⟩,
              hitem⟩
          rw [hp]
          rfl
        · have hq : decide (x.log ∈ allR.filter
              (fun r => decide (r.grade = gb)) ∧ x.item = i) = true :=
            decide_eq_true ⟨List.mem_filter.mpr ⟨hlog, decide_eq_true hg⟩,
              hitem⟩
          rw [hq, Bool.or_true]
      · rw [decide_eq_false hitem,
          decide_eq_false (fun hc => hitem hc.2),
          decide_eq_false (fun hc => hitem hc.2)]
        rfl
    · rintro ⟨hp, hq⟩
      have h1 := (of_decide_eq_true hp).1
      have h2 := (of_decide_eq_true hq).1
      have hg1 : x.log.grade = ga := by
        simpa using (List.mem_filter.mp h1).2
      have hg2 : x.log.grade = gb := by
        simpa using (List.mem_filter.mp h2).2
      exact hne (hg1 ▸ hg2)

theorem C7_rift_two_grades_witness :
    ((generate_rift_dungeon_report exGameItems [] exSrcItems
        [exLog1, exLog2] 100 [(1, "A"), (2, "B")]).map
      (fun rep => rep.report.length)) = some 3 := by
  obtain ⟨hrep, hsum⟩ := C7_rift_two_grades exGameItems [] exSrcItems
    [exLog1, exLog2] 100 1 2
    (recordsToReport ([exLog1, exLog2].filter
      (fun r => decide (r.grade = 1))) 100 REPORT_TIMESPAN MINIMUM_COUNT)
    (recordsToReport ([exLog1, exLog2].filter
      (fun r => decide (r.grade = 2))) 100 REPORT_TIMESPAN MINIMUM_COUNT)
    (sortByTimestampDesc
      ((recordsToReport ([exLog1, exLog2].filter
        (fun r => decide (r.grade = 1))) 100 REPORT_TIMESPAN MINIMUM_COUNT)
      ++ (recordsToReport ([exLog1, exLog2].filter
        (fun r => decide (r.grade = 2))) 100 REPORT_TIMESPAN MINIMUM_COUNT)))
    ((lookupItems (get_drop_querysets exSrcItems (sortByTimestampDesc
      ((recordsToReport ([exLog1, exLog2].filter
        (fun r => decide (r.grade = 1))) 100 REPORT_TIMESPAN MINIMUM_COUNT)
      ++ (recordsToReport ([exLog1, exLog2].filter
        (fun r => decide (r.grade = 2))) 100 REPORT_TIMESPAN
        MINIMUM_COUNT))))).getD [])
    (by decide) rfl rfl rfl rfl (by decide) (by decide)
  rw [hrep]
  simp only [Option.map_some']
  rfl

theorem C10_cross_grade_denominator_witness :
    ((c10report.headD default).drops.headD default).drop_chance
      = (((c10report.headD default).drops.headD default).count : ℚ)
        / (([exLog1, exLog2] : List LogRecord).length : ℚ) * 100
    ∧ ((c10report.headD default).drops.headD default).count = 1
    ∧ ([exLog1, exLog2] : List LogRecord).length = 2
    ∧ ((c10report.headD default).drops.headD default).drop_chance = 50 := by
  have h := C10_cross_grade_denominator exGameItems [] c10src
    [exLog1, exLog2] [(1, "A"), (2, "B")]
    (c10report.headD default) (headD_mem _ _ (by decide))
    ((c10report.headD default).drops.headD default)
    (headD_mem _ _ (by decide))
  refine ⟨h.1, by decide, by decide, ?_⟩
  norm_num [c10report, grade_summary_report, gsItemEntry, gsMonsterEntry,
    get_drop_querysets, lookupItems, lookupMonsters, exGameItems, c10src,
    exLog1, exLog2, avgQ, itemsRelatedName, monstersRelatedName]

end Swarfarm
